import Mathlib

/-!
# chatbot-go: conversation state engine

A shallow embedding of `src/main.go` (package `main`): the conversation store
(`obtenerEstadoUsuario`, `actualizarEstadoUsuario`), the message log
(`guardarMensaje`), the menu handlers (`manejarOpcionMenuPrincipal`,
`manejarOpcionTours`, `manejarOpcionTraslados`), the template dispatcher
(`enviarMensaje`) and the two HTTP handlers (`handleWebhook`,
`enviarMensajeSinPlantilla`).

The database, the HTTP client and the clock are an explicit world value that
every operation takes and returns.
-/

namespace ChatbotGo

/-! ## Time values (package `time`) -/

/-- A `time.Time`: the wall-clock fields in the zone of the value, the
nanosecond within the second, and the zone offset in seconds east of UTC. -/
structure Time where
  year : Nat
  month : Nat
  day : Nat
  hour : Nat
  minute : Nat
  second : Nat
  nano : Nat
  offset : Int
deriving DecidableEq, Repr

/-- Gregorian leap year. -/
def esBisiesto (y : Nat) : Bool :=
  y % 4 == 0 && (y % 100 != 0 || y % 400 == 0)

/-- Days of a month, as `time.daysIn`. -/
def diasDelMes (m y : Nat) : Nat :=
  if m = 2 then (if esBisiesto y then 29 else 28)
  else if m = 4 ∨ m = 6 ∨ m = 9 ∨ m = 11 then 30
  else 31

/-- Days from 1970-01-01 to the civil date `y-m-d` (proleptic Gregorian). -/
def diasDesdeCivil (y m d : Nat) : Int :=
  let y1 : Int := if m ≤ 2 then (y : Int) - 1 else (y : Int)
  let era : Int := y1 / 400
  let yoe : Int := y1 - era * 400
  let mp : Int := if m ≤ 2 then (m : Int) + 9 else (m : Int) - 3
  let doy : Int := (153 * mp + 2) / 5 + (d : Int) - 1
  let doe : Int := yoe * 365 + yoe / 4 - yoe / 100 + doy
  era * 146097 + doe - 719468

/-- Seconds of the wall-clock fields, read as if they were UTC. -/
def Time.segundosCiviles (t : Time) : Int :=
  diasDesdeCivil t.year t.month t.day * 86400
    + (t.hour : Int) * 3600 + (t.minute : Int) * 60 + (t.second : Int)

/-- The instant of a time value, in nanoseconds since 1970-01-01T00:00:00Z. -/
def Time.unixNano (t : Time) : Int :=
  (t.segundosCiviles - t.offset) * 1000000000 + (t.nano : Int)

/-- The constant `time.Hour`, in nanoseconds. -/
def Hour : Int := 3600000000000

/-- The instant of `t.Add(d)`. -/
def Time.Add (t : Time) (d : Int) : Int := t.unixNano + d

/-- `x.Before(u)` for the instant `x` of a time value: strictly earlier. -/
def antesDe (x : Int) (u : Time) : Bool := decide (x < u.unixNano)

/-- A clock reading that `time.Now()` can return: fields in range, four-digit
year, zone offset within a day. -/
def Time.valido (t : Time) : Prop :=
  t.year < 10000 ∧ 1 ≤ t.month ∧ t.month ≤ 12 ∧ 1 ≤ t.day ∧ t.day ≤ diasDelMes t.month t.year
    ∧ t.hour < 24 ∧ t.minute < 60 ∧ t.second < 60 ∧ t.nano < 1000000000
    ∧ -86400 < t.offset ∧ t.offset < 86400

instance (t : Time) : Decidable t.valido := by
  unfold Time.valido; exact inferInstance

/-! ## Time texts -/

/-- The decimal digit character of `n % 10`. -/
def digito (n : Nat) : Char := Char.ofNat (48 + n % 10)

/-- Go's `isDigit`. -/
def esDigito (c : Char) : Bool := decide (48 ≤ c.toNat ∧ c.toNat ≤ 57)

/-- Value of a digit character. -/
def valorDigito (c : Char) : Nat := c.toNat - 48

/-- `appendInt(b, n, 2)`: at least two digits. -/
def dosDigitos (n : Nat) : List Char :=
  if n < 100 then [digito (n / 10), digito n] else Nat.toDigits 10 n

/-- `appendInt(b, n, 4)`: at least four digits. -/
def cuatroDigitos (n : Nat) : List Char :=
  if n < 10000 then [digito (n / 1000), digito (n / 100), digito (n / 10), digito n]
  else Nat.toDigits 10 n

/-- The text of `t.Format("2006-01-02 15:04:05")`: the wall-clock fields, no
fraction and no zone. -/
def formatoFechaHora (t : Time) : String :=
  String.mk (cuatroDigitos t.year ++ '-' :: dosDigitos t.month ++ '-' :: dosDigitos t.day
    ++ ' ' :: dosDigitos t.hour ++ ':' :: dosDigitos t.minute ++ ':' :: dosDigitos t.second)

/-- The nine digits of the nanosecond without trailing zeros. -/
def digitosFraccion (n : Nat) : List Char :=
  ([digito (n / 100000000), digito (n / 10000000), digito (n / 1000000), digito (n / 100000),
    digito (n / 10000), digito (n / 1000), digito (n / 100), digito (n / 10),
    digito n].reverse.dropWhile (fun c => c == '0')).reverse

/-- The zone element `Z07:00` when formatting: `Z` for UTC, else sign, hours
and minutes of the offset. -/
def formatoZona (off : Int) : List Char :=
  if off = 0 then ['Z']
  else
    let a := off.natAbs / 60
    (if off < 0 then '-' else '+') :: dosDigitos (a / 60) ++ ':' :: dosDigitos (a % 60)

/-- The text of `t.Format(time.RFC3339Nano)`. -/
def formatoRFC3339Nano (t : Time) : String :=
  String.mk (cuatroDigitos t.year ++ '-' :: dosDigitos t.month ++ '-' :: dosDigitos t.day
    ++ 'T' :: dosDigitos t.hour ++ ':' :: dosDigitos t.minute ++ ':' :: dosDigitos t.second
    ++ (if t.nano = 0 then [] else '.' :: digitosFraccion t.nano) ++ formatoZona t.offset)

/-- Parsing a fixed two-digit field (`getnum(value, true)`). -/
def leerDos : List Char → Option (Nat × List Char)
  | a :: b :: r =>
    if esDigito a && esDigito b then some (valorDigito a * 10 + valorDigito b, r) else none
  | _ => none

/-- Parsing the four-digit year. -/
def leerCuatro : List Char → Option (Nat × List Char)
  | a :: b :: c :: d :: r =>
    if esDigito a && esDigito b && esDigito c && esDigito d then
      some (valorDigito a * 1000 + valorDigito b * 100 + valorDigito c * 10 + valorDigito d, r)
    else none
  | _ => none

/-- Parsing the hour `15` (`getnum(value, false)`): one or two digits. -/
def leerHora : List Char → Option (Nat × List Char)
  | [] => none
  | [a] => if esDigito a then some (valorDigito a, []) else none
  | a :: b :: r =>
    if esDigito a then
      (if esDigito b then some (valorDigito a * 10 + valorDigito b, r)
       else some (valorDigito a, b :: r))
    else none

/-- A literal character of the layout. -/
def leerLiteral (c : Char) : List Char → Option (List Char)
  | a :: r => if a = c then some r else none
  | [] => none

/-- The leading run of digits and the rest. -/
def tomarDigitos : List Char → List Char × List Char
  | [] => ([], [])
  | a :: r =>
    if esDigito a then ((tomarDigitos r).1.cons a, (tomarDigitos r).2) else ([], a :: r)

/-- Nanoseconds of a run of fraction digits (`parseNanoseconds`): the first nine
digits count. -/
def nanosDe (ds : List Char) : Nat :=
  (ds.take 9).foldl (fun a c => a * 10 + valorDigito c) 0 * 10 ^ (9 - (ds.take 9).length)

/-- An optional fractional second after the seconds field: a period or comma
followed by a digit. -/
def leerFraccion : List Char → Nat × List Char
  | c :: d :: r =>
    if (c = '.' ∨ c = ',') ∧ esDigito d = true then
      (nanosDe (tomarDigitos (d :: r)).1, (tomarDigitos (d :: r)).2)
    else (0, c :: d :: r)
  | r => (0, r)

/-- A numeric zone `-07:00`: sign, two-digit hours, colon, two-digit minutes. -/
def leerZonaNumerica : List Char → Option (Int × List Char)
  | s :: h1 :: h2 :: c :: m1 :: m2 :: r =>
    if c = ':' ∧ (s = '+' ∨ s = '-') ∧ esDigito h1 = true ∧ esDigito h2 = true
        ∧ esDigito m1 = true ∧ esDigito m2 = true then
      let hh := valorDigito h1 * 10 + valorDigito h2
      let mm := valorDigito m1 * 10 + valorDigito m2
      if hh ≤ 24 ∧ mm ≤ 60 then
        some ((if s = '-' then -1 else 1) * (((hh * 60 + mm) * 60 : Nat) : Int), r)
      else none
    else none
  | _ => none

/-- The zone element `Z07:00` when parsing: `Z`, or a numeric zone. -/
def leerZona : List Char → Option (Int × List Char)
  | [] => none
  | a :: r => if a = 'Z' then some (0, r) else leerZonaNumerica (a :: r)

/-- Range checks of `time.Parse` on the parsed fields. -/
def camposValidos (y mo d h mi s : Nat) : Bool :=
  decide (1 ≤ mo ∧ mo ≤ 12 ∧ 1 ≤ d ∧ d ≤ diasDelMes mo y ∧ h < 24 ∧ mi < 60 ∧ s < 60)

/-- The function `time.Parse(time.RFC3339, s)` on the characters of `s`;
`none` is a parse error. -/
def parseRFC3339Lista (cs : List Char) : Option Time :=
  match leerCuatro cs with
  | none => none
  | some (y, r) =>
  match leerLiteral '-' r with
  | none => none
  | some r =>
  match leerDos r with
  | none => none
  | some (mo, r) =>
  match leerLiteral '-' r with
  | none => none
  | some r =>
  match leerDos r with
  | none => none
  | some (d, r) =>
  match leerLiteral 'T' r with
  | none => none
  | some r =>
  match leerHora r with
  | none => none
  | some (h, r) =>
  match leerLiteral ':' r with
  | none => none
  | some r =>
  match leerDos r with
  | none => none
  | some (mi, r) =>
  match leerLiteral ':' r with
  | none => none
  | some r =>
  match leerDos r with
  | none => none
  | some (s, r) =>
  match leerZona (leerFraccion r).2 with
  | none => none
  | some (off, r2) =>
    if r2 = [] ∧ camposValidos y mo d h mi s = true then
      some ⟨y, mo, d, h, mi, s, (leerFraccion r).1, off⟩
    else none

/-- The function `time.Parse(time.RFC3339, s)`. -/
def parseRFC3339 (s : String) : Option Time := parseRFC3339Lista s.data

/-! ## The `fecha_actualizacion` column

`inicializarBaseDeDatos` declares the column as `fecha_actualizacion DATE`
(main.go:73-79) and `main.go` opens the database with the driver
`github.com/mattn/go-sqlite3` (main.go:17, 64).  For a column declared `DATE`
that driver does not return the stored text: it returns a time value, found by
trying its timestamp layouts on the text (without its suffix `Z`), read in UTC
when the text names no zone, and the zero time when no layout fits.
`Scan` into a `string`, as `obtenerEstadoUsuario` does, writes a time value in
layout `time.RFC3339Nano`.  So the string the getter parses is not the text
the setter wrote but its rendering by `escanearFecha` below. -/

/-- `strings.TrimSuffix(s, "Z")`. -/
def quitarSufijoZ (cs : List Char) : List Char :=
  if cs.getLast? = some 'Z' then cs.dropLast else cs

/-- The zero `time.Time`, the driver's value for a text in none of its
layouts. -/
def horaCero : Time := ⟨1, 1, 1, 0, 0, 0, 0, 0⟩

/-- The separator between date and time in the driver's layouts. -/
def leerSeparador : List Char → Option (List Char)
  | a :: r => if a = ' ' ∨ a = 'T' then some r else none
  | [] => none

/-- What follows the minutes in the driver's layouts: nothing, or seconds with
an optional fraction and an optional numeric zone. -/
def leerSegundosYZona (y mo d h mi : Nat) (r : List Char) : Option Time :=
  if r = [] then
    (if camposValidos y mo d h mi 0 = true then some ⟨y, mo, d, h, mi, 0, 0, 0⟩ else none)
  else
  match leerLiteral ':' r with
  | none => none
  | some r =>
  match leerDos r with
  | none => none
  | some (s, r) =>
    if camposValidos y mo d h mi s = true then
      (if (leerFraccion r).2 = [] then some ⟨y, mo, d, h, mi, s, (leerFraccion r).1, 0⟩
       else
        match leerZonaNumerica (leerFraccion r).2 with
        | some (off, []) => some ⟨y, mo, d, h, mi, s, (leerFraccion r).1, off⟩
        | _ => none)
    else none

/-- The driver's timestamp layouts, from `2006-01-02 15:04:05.999999999-07:00`
down to `2006-01-02`, on the characters of the column text. -/
def leerColumnaLista (cs : List Char) : Option Time :=
  match leerCuatro cs with
  | none => none
  | some (y, r) =>
  match leerLiteral '-' r with
  | none => none
  | some r =>
  match leerDos r with
  | none => none
  | some (mo, r) =>
  match leerLiteral '-' r with
  | none => none
  | some r =>
  match leerDos r with
  | none => none
  | some (d, r) =>
    if r = [] then
      (if camposValidos y mo d 0 0 0 = true then some ⟨y, mo, d, 0, 0, 0, 0, 0⟩ else none)
    else
    match leerSeparador r with
    | none => none
    | some r =>
    match leerHora r with
    | none => none
    | some (h, r) =>
    match leerLiteral ':' r with
    | none => none
    | some r =>
    match leerDos r with
    | none => none
    | some (mi, r) => leerSegundosYZona y mo d h mi r

/-- The time value the driver returns for the text of a `DATE` column. -/
def columnaDate (s : String) : Time :=
  (leerColumnaLista (quitarSufijoZ s.data)).getD horaCero

/-- The string that `Scan` stores for the `fecha_actualizacion` column. -/
def escanearFecha (s : String) : String := formatoRFC3339Nano (columnaDate s)

/-! ## The world: database, HTTP client, clock, configuration -/

/-- The struct `MessageTemplate`. -/
structure MessageTemplate where
  ID : String
  Message : String
deriving DecidableEq, Repr

/-- A row of the table `usuarios`; `numero` is the primary key and
`fecha_actualizacion` holds the text that was inserted. -/
structure Usuario where
  numero : String
  estado : String
  fecha_actualizacion : String
deriving DecidableEq, Repr

/-- A row of the table `mensajes` (without the autoincrement id; rows are kept
in insertion order). -/
structure Mensaje where
  numero : String
  tipo : String
  mensaje : String
  timestamp : String
deriving DecidableEq, Repr

/-- The JSON body of a request to the provider, by its fields: a template
message (`to`, template name, language code) or a text message (`to`, text
body). -/
inductive Payload where
  | template (destino name code : String)
  | text (destino body : String)
deriving DecidableEq, Repr

/-- A request handed to `client.Do`; `respondida` is false when `Do` returned
a transport error. -/
structure Peticion where
  payload : Payload
  respondida : Bool
deriving DecidableEq, Repr

/-- A Go `error` value of the store. -/
inductive Error where
  | baseDeDatos
  | fechaInvalida
deriving DecidableEq, Repr

/-- Everything the handlers read and write besides their arguments.
`fallosDb` and `fallosHttp` give the outcome of the coming database operations
and provider requests, in order (`true`: that one fails); past the end of the
list every operation succeeds.  `urlValida` says whether `whatsappUrl` is
accepted by `http.NewRequest`.  `ahora` is the reading of `time.Now()` while a
request is handled. -/
structure Mundo where
  messageTemplates : List MessageTemplate
  usuarios : List Usuario
  mensajes : List Mensaje
  peticiones : List Peticion
  ahora : Time
  fallosDb : List Bool
  fallosHttp : List Bool
  urlValida : Bool
deriving DecidableEq, Repr

def estadoPrincipal : String := "MENU_PRINCIPAL"
def estadoTours : String := "TOURS"
def estadoTraslados : String := "TRASLADOS"
def estadoAgente : String := "AGENTE"

/-- Outcome of the next database operation (`true`: it fails) and the world
with that outcome used up. -/
def Mundo.turnoDb (m : Mundo) : Bool × Mundo :=
  match m.fallosDb with
  | [] => (false, m)
  | b :: r => (b, { m with fallosDb := r })

/-- Outcome of the next provider request (`true`: transport error) and the
world with that outcome used up. -/
def Mundo.turnoHttp (m : Mundo) : Bool × Mundo :=
  match m.fallosHttp with
  | [] => (false, m)
  | b :: r => (b, { m with fallosHttp := r })

/-- `INSERT OR REPLACE INTO usuarios`: the row with the same primary key goes,
the new row comes. -/
def reemplazarUsuario (us : List Usuario) (u : Usuario) : List Usuario :=
  us.filter (fun x => x.numero != u.numero) ++ [u]

/-! ## Store operations -/

/-- The function `guardarMensaje` of `main.go`. -/
def guardarMensaje (numero tipo mensaje : String) (m : Mundo) : Option Error × Mundo :=
  let timestamp := formatoFechaHora m.ahora
  match m.turnoDb with
  | (true, m1) => (some Error.baseDeDatos, m1)
  | (false, m1) =>
    (none, { m1 with mensajes := m1.mensajes ++ [⟨numero, tipo, mensaje, timestamp⟩] })

/-- The function `actualizarEstadoUsuario` of `main.go`. -/
def actualizarEstadoUsuario (numero estado : String) (m : Mundo) : Option Error × Mundo :=
  let fechaActualizacion := formatoFechaHora m.ahora
  match m.turnoDb with
  | (true, m1) => (some Error.baseDeDatos, m1)
  | (false, m1) =>
    (none, { m1 with usuarios := reemplazarUsuario m1.usuarios ⟨numero, estado, fechaActualizacion⟩ })

/-- The function `obtenerEstadoUsuario` of `main.go`: state, timestamp string
and error. -/
def obtenerEstadoUsuario (numero : String) (m : Mundo) :
    (String × String × Option Error) × Mundo :=
  match m.turnoDb with
  | (true, m1) => (("", "", some Error.baseDeDatos), m1)
  | (false, m1) =>
    match m1.usuarios.find? (fun u => u.numero == numero) with
    | none => (("", "", none), m1)
    | some u =>
      let estado := u.estado
      let fechaActualizacion := escanearFecha u.fecha_actualizacion
      match parseRFC3339 fechaActualizacion with
      | none => (("", "", some Error.fechaInvalida), m1)
      | some fechaActualizacionDate =>
        let estado :=
          if antesDe (fechaActualizacionDate.Add (Hour * 24)) m1.ahora = true then estadoPrincipal
          else estado
        let estado :=
          if estado = estadoAgente then
            (if antesDe (fechaActualizacionDate.Add (Hour * 4)) m1.ahora = true then
              estadoPrincipal
             else estado)
          else estado
        ((estado, fechaActualizacion, none), m1)

/-! ## Outbound dispatcher -/

/-- The search loop of `enviarMensaje`: the message of the first template with
the target id, the empty string when there is none. -/
def buscarMensaje (targetID : String) : List MessageTemplate → String
  | [] => ""
  | template :: resto =>
    if template.ID = targetID then template.Message else buscarMensaje targetID resto

/-- The function `enviarMensaje` of `main.go`. -/
def enviarMensaje (numero contenido : String) (m : Mundo) : Mundo :=
  let templateName := if contenido = "" then "greeting_es" else contenido
  let payload := Payload.template numero templateName "es_AR"
  let targetMessage := buscarMensaje templateName m.messageTemplates
  if m.urlValida = false then m
  else
    match m.turnoHttp with
    | (true, m1) => { m1 with peticiones := m1.peticiones ++ [⟨payload, false⟩] }
    | (false, m1) =>
      (guardarMensaje numero "ENVIADO" targetMessage
        { m1 with peticiones := m1.peticiones ++ [⟨payload, true⟩] }).2

/-! ## Menu handlers -/

/-- The function `manejarOpcionMenuPrincipal` of `main.go`. -/
def manejarOpcionMenuPrincipal (numero opcion : String) (m : Mundo) : Mundo :=
  if opcion = "1" then
    let m1 := (actualizarEstadoUsuario numero estadoTours m).2
    match obtenerEstadoUsuario numero m1 with
    | ((_, _, some _), m2) => m2
    | ((_, _, none), m2) => enviarMensaje numero "tours_es" m2
  else if opcion = "2" then
    let m1 := (actualizarEstadoUsuario numero estadoTraslados m).2
    match obtenerEstadoUsuario numero m1 with
    | ((_, _, some _), m2) => m2
    | ((_, _, none), m2) => enviarMensaje numero "transport_es" m2
  else if opcion = "3" then enviarMensaje numero "404_es" m
  else if opcion = "4" then enviarMensaje numero "404_es" m
  else if opcion = "5" then enviarMensaje numero "404_es" m
  else if opcion = "6" then enviarMensaje numero "404_es" m
  else if opcion = "agente" then enviarMensaje numero "agent_es" m
  else
    let m1 := (actualizarEstadoUsuario numero estadoPrincipal m).2
    enviarMensaje numero "greeting_es" m1

/-- The function `manejarOpcionTraslados` of `main.go`. -/
def manejarOpcionTraslados (numero opcion : String) (m : Mundo) : Mundo :=
  if opcion = "1" then enviarMensaje numero "404_es" m
  else if opcion = "2" then enviarMensaje numero "404_es" m
  else
    let m1 := (actualizarEstadoUsuario numero estadoPrincipal m).2
    enviarMensaje numero "greeting_es" m1

/-- The function `manejarOpcionTours` of `main.go`. -/
def manejarOpcionTours (numero opcion : String) (m : Mundo) : Mundo :=
  if opcion = "1" then enviarMensaje numero "404_es" m
  else if opcion = "2" then enviarMensaje numero "404_es" m
  else
    let m1 := (actualizarEstadoUsuario numero estadoPrincipal m).2
    enviarMensaje numero "greeting_es" m1

/-! ## Requests -/

/-- A decoded JSON document, as `encoding/json` stores it in an
`interface{}`: `nil`, `bool`, `float64` (kept as its literal), `string`,
`[]interface{}` and `map[string]interface{}` (the members in document order). -/
inductive JSON where
  | null
  | bool (b : Bool)
  | number (literal : String)
  | string (s : String)
  | array (elementos : List JSON)
  | object (miembros : List (String × JSON))

/-- Indexing a decoded object by key; of two members with one key the later
one is the one the decoder keeps. -/
def indice : List (String × JSON) → String → Option JSON
  | [], _ => none
  | (k, v) :: resto, clave =>
    match indice resto clave with
    | some x => some x
    | none => if k = clave then some v else none

/-- The type assertion `x.([]interface{})`. -/
def comoArreglo : Option JSON → Option (List JSON)
  | some (JSON.array xs) => some xs
  | _ => none

/-- The type assertion `x.(map[string]interface{})`. -/
def comoMapa : Option JSON → Option (List (String × JSON))
  | some (JSON.object ms) => some ms
  | _ => none

/-- The type assertion `x.(string)`. -/
def comoCadena : Option JSON → Option String
  | some (JSON.string s) => some s
  | _ => none

/-- The body of a request: unreadable (`ioutil.ReadAll` fails), not a JSON
text, or a JSON document. -/
inductive Cuerpo where
  | ilegible
  | noEsJSON
  | documento (v : JSON)

/-- The part of `*http.Request` the handlers use. -/
structure Request where
  Method : String
  Body : Cuerpo

/-- `json.Unmarshal` into a `map[string]interface{}`: an object gives its
members, `null` leaves the map empty, any other document is an error. -/
def decodificarMapa : JSON → Option (List (String × JSON))
  | JSON.object ms => some ms
  | JSON.null => some []
  | _ => none

/-! ## Webhook handler -/

/-- Lines 362-430 of `handleWebhook`: what is done with one message once
`from` and `body` are extracted.  The first component is the status written
when the handler returns from inside the loops, `none` when the loop goes on. -/
def handleWebhookEvento (remitente body : String) (m : Mundo) : Option Nat × Mundo :=
  match guardarMensaje remitente "RECIBIDO" body m with
  | (some _, m1) => (some 500, m1)
  | (none, m1) =>
    match obtenerEstadoUsuario remitente m1 with
    | ((_, _, some _), m2) => (some 500, m2)
    | ((estadoActual, _, none), m2) =>
      let estadoActual := if estadoActual = "" then estadoPrincipal else estadoActual
      if estadoActual = estadoPrincipal then (none, manejarOpcionMenuPrincipal remitente body m2)
      else if estadoActual = estadoTours then (none, manejarOpcionTours remitente body m2)
      else if estadoActual = estadoTraslados then
        (none, manejarOpcionTraslados remitente body m2)
      else (none, m2)

/-- The body of the loop over `messages` (lines 338-431). -/
def handleWebhookMensaje (message : JSON) (m : Mundo) : Option Nat × Mundo :=
  match comoMapa (some message) with
  | none => (none, m)
  | some messageMap =>
    match comoCadena (indice messageMap "from") with
    | none => (none, m)
    | some remitente =>
      match comoMapa (indice messageMap "text") with
      | none => (none, m)
      | some text =>
        match comoCadena (indice text "body") with
        | none => (none, m)
        | some body => handleWebhookEvento remitente body m

/-- The loop over `messages`. -/
def handleWebhookMensajes : List JSON → Mundo → Option Nat × Mundo
  | [], m => (none, m)
  | message :: resto, m =>
    match handleWebhookMensaje message m with
    | (some status, m1) => (some status, m1)
    | (none, m1) => handleWebhookMensajes resto m1

/-- The body of the loop over `changes` (lines 319-432). -/
def handleWebhookCambio (change : JSON) (m : Mundo) : Option Nat × Mundo :=
  match comoMapa (some change) with
  | none => (none, m)
  | some changeMap =>
    match comoMapa (indice changeMap "value") with
    | none => (none, m)
    | some value =>
      match comoArreglo (indice value "messages") with
      | none => (none, m)
      | some messages =>
        if messages.length = 0 then (none, m) else handleWebhookMensajes messages m

/-- The loop over `changes`. -/
def handleWebhookCambios : List JSON → Mundo → Option Nat × Mundo
  | [], m => (none, m)
  | change :: resto, m =>
    match handleWebhookCambio change m with
    | (some status, m1) => (some status, m1)
    | (none, m1) => handleWebhookCambios resto m1

/-- The body of the loop over `entries` (lines 305-433). -/
def handleWebhookEntrada (entry : JSON) (m : Mundo) : Option Nat × Mundo :=
  match comoMapa (some entry) with
  | none => (none, m)
  | some entryMap =>
    match comoArreglo (indice entryMap "changes") with
    | none => (none, m)
    | some changes =>
      if changes.length = 0 then (none, m) else handleWebhookCambios changes m

/-- The loop over `entries`. -/
def handleWebhookEntradas : List JSON → Mundo → Option Nat × Mundo
  | [], m => (none, m)
  | entry :: resto, m =>
    match handleWebhookEntrada entry m with
    | (some status, m1) => (some status, m1)
    | (none, m1) => handleWebhookEntradas resto m1

/-- The function `handleWebhook` of `main.go`: the status written to the
response and the world afterwards. -/
def handleWebhook (r : Request) (m : Mundo) : Nat × Mundo :=
  if r.Method = "POST" then
    match r.Body with
    | Cuerpo.ilegible => (500, m)
    | Cuerpo.noEsJSON => (400, m)
    | Cuerpo.documento v =>
      match decodificarMapa v with
      | none => (400, m)
      | some webhookData =>
        match comoArreglo (indice webhookData "entry") with
        | none => (400, m)
        | some entries =>
          if entries.length = 0 then (400, m)
          else
            match handleWebhookEntradas entries m with
            | (some status, m1) => (status, m1)
            | (none, m1) => (200, m1)
  else (405, m)

/-! ## Free-text endpoint -/

/-- The function `enviarMensajeSinPlantilla` of `main.go`.  The first component
is the status the handler writes; `none` when it returns without writing one
(the server then answers 200). -/
def enviarMensajeSinPlantilla (r : Request) (m : Mundo) : Option Nat × Mundo :=
  if r.Method = "POST" then
    match r.Body with
    | Cuerpo.ilegible => (some 500, m)
    | Cuerpo.noEsJSON => (some 400, m)
    | Cuerpo.documento v =>
      match decodificarMapa v with
      | none => (some 400, m)
      | some webhookData =>
        match comoCadena (indice webhookData "numero") with
        | none => (some 400, m)
        | some numero =>
          match comoCadena (indice webhookData "contenido") with
          | none => (some 400, m)
          | some contenido =>
            match obtenerEstadoUsuario numero m with
            | ((_, _, some _), m1) => (some 500, m1)
            | ((_, fechaEstado, none), m1) =>
              match parseRFC3339 fechaEstado with
              | none => (some 500, m1)
              | some fechaEstadoDate =>
                if antesDe (fechaEstadoDate.Add (Hour * 24)) m1.ahora = true then (some 400, m1)
                else if contenido = "/cerrar" then
                  match actualizarEstadoUsuario numero estadoPrincipal m1 with
                  | (some _, m2) => (some 500, m2)
                  | (none, m2) => (none, enviarMensaje numero "goodbye_es" m2)
                else
                  let payload := Payload.text numero contenido
                  if m1.urlValida = false then (none, m1)
                  else
                    match m1.turnoHttp with
                    | (true, m2) =>
                      (none, { m2 with peticiones := m2.peticiones ++ [⟨payload, false⟩] })
                    | (false, m2) =>
                      match guardarMensaje numero "ENVIADO" contenido
                          { m2 with peticiones := m2.peticiones ++ [⟨payload, true⟩] } with
                      | (some _, m3) => (none, m3)
                      | (none, m3) => (none, (actualizarEstadoUsuario numero estadoAgente m3).2)
  else (none, m)

/-- The status the client sees: the one written, 200 when none was. -/
def statusVisto (escrito : Option Nat) : Nat := escrito.getD 200

/-! ## Observations and the transition table of the specification -/

/-- The state `handleWebhook` dispatches on for a sender (lines 399-409): the
state `obtenerEstadoUsuario` returns, the empty state replaced by
`MENU_PRINCIPAL`; `none` when the read returns an error. -/
def estadoEfectivo (numero : String) (m : Mundo) : Option String :=
  match (obtenerEstadoUsuario numero m).1 with
  | (_, _, some _) => none
  | (estado, _, none) => some (if estado = "" then estadoPrincipal else estado)

/-- The wall-clock fields of a clock reading as a UTC time without fraction:
what the `DATE` column gives back for the text `formatoFechaHora` writes. -/
def Time.comoUTC (t : Time) : Time := { t with nano := 0, offset := 0 }

/-- Transition table of the specification, rows of MAIN_MENU: next state and
reply template for an input. -/
def tablaMenuPrincipal (input : String) : String × String :=
  if input = "1" then ("TOURS", "tours_es")
  else if input = "2" then ("TRASLADOS", "transport_es")
  else if input = "3" ∨ input = "4" ∨ input = "5" ∨ input = "6" then ("MENU_PRINCIPAL", "404_es")
  else if input = "agente" then ("MENU_PRINCIPAL", "agent_es")
  else ("MENU_PRINCIPAL", "greeting_es")

/-- Transition table of the specification, rows of a submenu (TOURS or
TRANSFERS): next state and reply template for an input. -/
def tablaSubmenu (estado input : String) : String × String :=
  if input = "1" ∨ input = "2" then (estado, "404_es") else ("MENU_PRINCIPAL", "greeting_es")

/-- The world after a successful `INSERT OR REPLACE` of a sender's state at the
current clock reading. -/
def Mundo.conEstado (m : Mundo) (numero estado : String) : Mundo :=
  { m with usuarios := reemplazarUsuario m.usuarios ⟨numero, estado, formatoFechaHora m.ahora⟩ }

/-- The world after a successful `INSERT` into `mensajes` at the current clock
reading. -/
def Mundo.conMensaje (m : Mundo) (numero tipo mensaje : String) : Mundo :=
  { m with mensajes := m.mensajes ++ [⟨numero, tipo, mensaje, formatoFechaHora m.ahora⟩] }

/-- The world after a provider request was issued. -/
def Mundo.conPeticion (m : Mundo) (payload : Payload) (respondida : Bool) : Mundo :=
  { m with peticiones := m.peticiones ++ [⟨payload, respondida⟩] }

/-- Expiry policy of the specification: MAIN_MENU when the record is older than
24 hours, or is AGENT and older than 4 hours; else the stored state. -/
def estadoSegunPolitica (s : String) (t ahora : Time) : String :=
  if ahora.unixNano - t.unixNano > 24 * Hour then "MENU_PRINCIPAL"
  else if s = "AGENTE" ∧ ahora.unixNano - t.unixNano > 4 * Hour then "MENU_PRINCIPAL"
  else s

/-- The rows of `usuarios` all carry a timestamp the getter can parse. -/
def Mundo.legible (m : Mundo) : Prop :=
  ∀ u ∈ m.usuarios, parseRFC3339 (escanearFecha u.fecha_actualizacion) ≠ none

/-- The store works: no database operation fails, the clock reading is well
formed and every row is legible. -/
def Mundo.almacenFunciona (m : Mundo) : Prop :=
  m.fallosDb = [] ∧ m.ahora.valido ∧ m.legible


/-! ## Example worlds -/

/-- A clock reading in UTC: 2024-03-05 12:00:00. -/
def relojUTC : Time := ⟨2024, 3, 5, 12, 0, 0, 0, 0⟩

/-- A template catalog. -/
def catalogoEjemplo : List MessageTemplate :=
  [⟨"greeting_es", "Hola"⟩, ⟨"tours_es", "Tours"⟩, ⟨"goodbye_es", "Adios"⟩]

/-- A world with empty tables, a working database and a working provider. -/
def mundoInicial : Mundo := ⟨catalogoEjemplo, [], [], [], relojUTC, [], [], true⟩

/-- The sender of the examples. -/
def remitenteEjemplo : String := "5491123456789"

/-- A world whose table `usuarios` holds one row for the example sender. -/
def mundoCon (estado fecha : String) : Mundo :=
  { mundoInicial with usuarios := [⟨remitenteEjemplo, estado, fecha⟩] }

/-- A POST to the free-text endpoint with string `numero` and `contenido`. -/
def peticionLibre (numero contenido : String) : Request :=
  ⟨"POST", Cuerpo.documento (JSON.object
    [("numero", JSON.string numero), ("contenido", JSON.string contenido)])⟩

/-- A clock reading in zone UTC-05:00: 2024-03-05 07:00:00 local time. -/
def relojOeste : Time := ⟨2024, 3, 5, 7, 0, 0, 0, -18000⟩

/-- The initial world of a process whose local zone is UTC-05:00. -/
def mundoOeste : Mundo := { mundoInicial with ahora := relojOeste }

/-- Go's `unicode.IsSpace`. -/
def esEspacio (c : Char) : Bool :=
  c = '\t' || c = '\n' || c = Char.ofNat 11 || c = Char.ofNat 12 || c = '\r' || c = ' '
    || c = Char.ofNat 0x85 || c = Char.ofNat 0xA0 || c = Char.ofNat 0x1680
    || (0x2000 ≤ c.toNat && c.toNat ≤ 0x200A) || c = Char.ofNat 0x2028
    || c = Char.ofNat 0x2029 || c = Char.ofNat 0x202F || c = Char.ofNat 0x205F
    || c = Char.ofNat 0x3000

/-- The whitespace-trimmed form of a body (`strings.TrimSpace`), which the
specification matches on. -/
def recortar (s : String) : String :=
  String.mk ((s.data.dropWhile esEspacio).reverse.dropWhile esEspacio).reverse

/-- The options of the main menu. -/
def opcionesMenu : List String := ["1", "2", "3", "4", "5", "6", "agente"]

/-- A webhook payload with one message. -/
def cargaWebhook (remitente body : String) : JSON :=
  JSON.object [("entry", JSON.array [JSON.object [("changes", JSON.array [JSON.object
    [("value", JSON.object [("messages", JSON.array [JSON.object
      [("from", JSON.string remitente), ("text", JSON.object [("body", JSON.string body)])]])])]])]])]

/-- The event of a message, by the words of the specification: the message is
an object with a string `from` and an object `text` holding a string `body`. -/
def eventoDeMensaje (message : JSON) : List (String × String) :=
  match message with
  | JSON.object messageMap =>
    match indice messageMap "from", indice messageMap "text" with
    | some (JSON.string remitente), some (JSON.object text) =>
      match indice text "body" with
      | some (JSON.string body) => [(remitente, body)]
      | _ => []
    | _, _ => []
  | _ => []

/-- Concatenation of the events of the items of an array, in document order. -/
def eventosDeLista (f : JSON → List (String × String)) : List JSON → List (String × String)
  | [] => []
  | x :: resto => f x ++ eventosDeLista f resto

/-- The events of a change: it is an object with an object `value` holding an
array `messages`. -/
def eventosDeCambio (change : JSON) : List (String × String) :=
  match change with
  | JSON.object changeMap =>
    match indice changeMap "value" with
    | some (JSON.object value) =>
      match indice value "messages" with
      | some (JSON.array messages) => eventosDeLista eventoDeMensaje messages
      | _ => []
    | _ => []
  | _ => []

/-- The events of an entry: it is an object with an array `changes`. -/
def eventosDeEntrada (entry : JSON) : List (String × String) :=
  match entry with
  | JSON.object entryMap =>
    match indice entryMap "changes" with
    | some (JSON.array changes) => eventosDeLista eventosDeCambio changes
    | _ => []
  | _ => []

/-- Handling a sequence of events one after the other. -/
def manejarEventos : List (String × String) → Mundo → Mundo
  | [], m => m
  | (remitente, body) :: resto, m => manejarEventos resto (handleWebhookEvento remitente body m).2

/-- The inbound entries of the message log, in insertion order. -/
def recibidos (m : Mundo) : List Mensaje := m.mensajes.filter (fun x => x.tipo == "RECIBIDO")

instance (m : Mundo) : Decidable m.legible := by
  unfold Mundo.legible; exact inferInstance

instance (m : Mundo) : Decidable m.almacenFunciona := by
  unfold Mundo.almacenFunciona; exact inferInstance

/-- The entries of a webhook batch with one message without a `body` field and
one well-formed message. -/
def entradasConMalformado : List JSON :=
  [JSON.object [("changes", JSON.array [JSON.object
    [("value", JSON.object [("messages", JSON.array
      [JSON.object [("from", JSON.string "5491100000000"), ("text", JSON.object [])],
       JSON.object [("from", JSON.string remitenteEjemplo),
         ("text", JSON.object [("body", JSON.string "1")])]])])]])]]

/-- The request delivering that batch. -/
def peticionConMalformado : Request :=
  ⟨"POST", Cuerpo.documento (JSON.object [("entry", JSON.array entradasConMalformado)])⟩

/-- The example sender in state TOURS since one hour, with the provider
unreachable: the next request fails with a transport error. -/
def mundoSinRed : Mundo :=
  { mundoCon "TOURS" "2024-03-05 11:00:00" with fallosHttp := [true] }

/-- Handling a sequence of events one after the other, up to and including the
first whose handling returns from the handler: the status written there, if
any, and the world. -/
def manejarEventosCorte : List (String × String) → Mundo → Option Nat × Mundo
  | [], m => (none, m)
  | (remitente, body) :: resto, m =>
    match handleWebhookEvento remitente body m with
    | (some status, m1) => (some status, m1)
    | (none, m1) => manejarEventosCorte resto m1

/-- The entries of a webhook batch with three well-formed messages. -/
def entradasTresEventos : List JSON :=
  [JSON.object [("changes", JSON.array [JSON.object
    [("value", JSON.object [("messages", JSON.array
      [JSON.object [("from", JSON.string "5491100000001"),
         ("text", JSON.object [("body", JSON.string "hola")])],
       JSON.object [("from", JSON.string "5491100000002"),
         ("text", JSON.object [("body", JSON.string "1")])],
       JSON.object [("from", JSON.string "5491100000003"),
         ("text", JSON.object [("body", JSON.string "2")])]])])]])]]

/-- The request delivering that batch. -/
def peticionTresEventos : Request :=
  ⟨"POST", Cuerpo.documento (JSON.object [("entry", JSON.array entradasTresEventos)])⟩

/-- The initial world with a schedule of database outcomes. -/
def mundoConFallos (fallos : List Bool) : Mundo := { mundoInicial with fallosDb := fallos }

/-- No row with state AGENTE is in the second world that was not in the first. -/
def sinNuevoAgente (m m2 : Mundo) : Prop :=
  ∀ u ∈ m2.usuarios, u.estado = "AGENTE" → u ∈ m.usuarios

/-- What the free-text endpoint leaves behind when it stores a new AGENTE row:
the row is the sender's, written at the current clock reading after the text
was delivered and logged. -/
def huellaTextoLibre (m m2 : Mundo) (u : Usuario) : Prop :=
  ∃ numero contenido, contenido ≠ "/cerrar"
    ∧ u = ⟨numero, "AGENTE", formatoFechaHora m.ahora⟩
    ∧ m2.mensajes = m.mensajes ++ [⟨numero, "ENVIADO", contenido, formatoFechaHora m.ahora⟩]
    ∧ m2.peticiones = m.peticiones ++ [⟨Payload.text numero contenido, true⟩]

/-- Every AGENTE row of the second world was in the first or was left by the
free-text endpoint. -/
def soloTextoLibre (m m2 : Mundo) : Prop :=
  ∀ u ∈ m2.usuarios, u.estado = "AGENTE" → u ∈ m.usuarios ∨ huellaTextoLibre m m2 u

/-- A clock reading in zone UTC+02:00: 2024-03-05 14:00:00 local time. -/
def relojEste : Time := ⟨2024, 3, 5, 14, 0, 0, 0, 7200⟩

/-- The world in which `actualizarEstadoUsuario` wrote the example sender's
state when the clock read `escrito`, at the later clock reading `ahora`. -/
def mundoMasTarde (escrito ahora : Time) (estado : String) : Mundo :=
  { (actualizarEstadoUsuario remitenteEjemplo estado
      { mundoInicial with ahora := escrito }).2 with ahora := ahora }

/-- The body the specification gives the log entry of a template: the message
of the first catalog entry whose id is `nombre`, the empty string when no
entry has that id. -/
def esPrimerMensaje (nombre : String) (catalogo : List MessageTemplate) (cuerpo : String) :
    Prop :=
  (∃ antes t despues, catalogo = antes ++ t :: despues ∧ (∀ x ∈ antes, x.ID ≠ nombre)
      ∧ t.ID = nombre ∧ cuerpo = t.Message)
  ∨ ((∀ x ∈ catalogo, x.ID ≠ nombre) ∧ cuerpo = "")

/-- The initial world with a catalog in which two templates share an id. -/
def mundoDuplicado : Mundo :=
  { mundoInicial with messageTemplates :=
      [⟨"greeting_es", "Hola"⟩, ⟨"promo_es", "primera"⟩, ⟨"promo_es", "segunda"⟩] }

/-! # Properties -/

/-! ## Time texts -/

theorem esDigito_digito (n : Nat) : esDigito (digito n) = true := by
  have h : n % 10 < 10 := Nat.mod_lt _ (by decide)
  unfold digito
  generalize n % 10 = k at h
  interval_cases k <;> decide

theorem valorDigito_digito (n : Nat) : valorDigito (digito n) = n % 10 := by
  have h : n % 10 < 10 := Nat.mod_lt _ (by decide)
  unfold digito
  generalize n % 10 = k at h
  interval_cases k <;> decide

theorem digito_no_es (n : Nat) (c : Char) (hc : esDigito c = false) : digito n ≠ c := by
  intro h
  have := esDigito_digito n
  rw [h, hc] at this
  exact Bool.noConfusion this

theorem digito_ne_Z (n : Nat) : digito n ≠ 'Z' := digito_no_es n _ (by decide)

theorem diasDelMes_le (m y : Nat) : diasDelMes m y ≤ 31 := by
  unfold diasDelMes; split_ifs <;> omega

/-- The `DATE` column gives back the wall-clock fields that were written, as a
UTC time. -/
theorem columnaDate_formatoFechaHora (t : Time) (h : t.valido) :
    columnaDate (formatoFechaHora t) = t.comoUTC := by
  obtain ⟨hy, hm1, hm2, hd1, hd2, hh, hmi, hs, hn, ho1, ho2⟩ := h
  have hd3 := diasDelMes_le t.month t.year
  have hmo : t.month < 100 := by omega
  have hd : t.day < 100 := by omega
  have hh' : t.hour < 100 := by omega
  have hmi' : t.minute < 100 := by omega
  have hs' : t.second < 100 := by omega
  have v1 : t.year / 1000 % 10 * 1000 + t.year / 100 % 10 * 100 + t.year / 10 % 10 * 10
      + t.year % 10 = t.year := by omega
  have v2 : ∀ n, n < 100 → n / 10 % 10 * 10 + n % 10 = n := by intro n hn; omega
  have cv : camposValidos t.year t.month t.day t.hour t.minute t.second = true := by
    simp [camposValidos]; omega
  simp [columnaDate, formatoFechaHora, cuatroDigitos, dosDigitos, hy, hmo, hd, hh', hmi', hs',
    quitarSufijoZ, digito_ne_Z, leerColumnaLista, leerCuatro, leerDos, leerLiteral, leerHora,
    leerSeparador, leerSegundosYZona, leerFraccion, esDigito_digito, valorDigito_digito, v1, v2,
    cv, Time.comoUTC]

/-- The string scanned for a UTC time without fraction parses back to it. -/
theorem parseRFC3339_formatoUTC (t : Time) (h : t.valido) :
    parseRFC3339 (formatoRFC3339Nano t.comoUTC) = some t.comoUTC := by
  obtain ⟨hy, hm1, hm2, hd1, hd2, hh, hmi, hs, hn, ho1, ho2⟩ := h
  have hd3 := diasDelMes_le t.month t.year
  have hmo : t.month < 100 := by omega
  have hd : t.day < 100 := by omega
  have hh' : t.hour < 100 := by omega
  have hmi' : t.minute < 100 := by omega
  have hs' : t.second < 100 := by omega
  have v1 : t.year / 1000 % 10 * 1000 + t.year / 100 % 10 * 100 + t.year / 10 % 10 * 10
      + t.year % 10 = t.year := by omega
  have v2 : ∀ n, n < 100 → n / 10 % 10 * 10 + n % 10 = n := by intro n hn; omega
  have cv : camposValidos t.year t.month t.day t.hour t.minute t.second = true := by
    simp [camposValidos]; omega
  simp [parseRFC3339, parseRFC3339Lista, formatoRFC3339Nano, formatoZona, cuatroDigitos,
    dosDigitos, hy, hmo, hd, hh', hmi', hs', leerCuatro, leerDos, leerLiteral, leerHora,
    leerFraccion, leerZona, esDigito_digito, valorDigito_digito, v1, v2, cv, Time.comoUTC]

/-- What the getter parses for a row the setter wrote at clock reading `t`. -/
theorem parseRFC3339_escanearFecha (t : Time) (h : t.valido) :
    parseRFC3339 (escanearFecha (formatoFechaHora t)) = some t.comoUTC := by
  rw [escanearFecha, columnaDate_formatoFechaHora t h, parseRFC3339_formatoUTC t h]

/-- A row written at the current clock reading is not older than 24 hours. -/
theorem no_vencido_24 (t : Time) (h : t.valido) :
    antesDe (t.comoUTC.Add (Hour * 24)) t = false := by
  obtain ⟨hy, hm1, hm2, hd1, hd2, hh, hmi, hs, hn, ho1, ho2⟩ := h
  simp only [antesDe, Time.Add, Time.unixNano, Time.comoUTC, Time.segundosCiviles, Hour,
    decide_eq_false_iff_not]
  generalize diasDesdeCivil t.year t.month t.day = D
  omega

/-- When a row written at the current clock reading counts as older than 4
hours: the zone offset of the clock decides. -/
theorem vencido_4_iff (t : Time) :
    antesDe (t.comoUTC.Add (Hour * 4)) t = true
      ↔ t.offset * 1000000000 + 14400000000000 < t.nano := by
  simp only [antesDe, Time.Add, Time.unixNano, Time.comoUTC, Time.segundosCiviles, Hour,
    decide_eq_true_eq]
  generalize diasDesdeCivil t.year t.month t.day = D
  omega

/-! ## Store -/

theorem find_reemplazar (us : List Usuario) (u : Usuario) :
    (reemplazarUsuario us u).find? (fun x => x.numero == u.numero) = some u := by
  unfold reemplazarUsuario
  rw [List.find?_append]
  have : (us.filter (fun x => x.numero != u.numero)).find? (fun x => x.numero == u.numero)
      = none := by
    simp [List.find?_eq_none]
  rw [this]; simp

theorem find_reemplazar_otro (us : List Usuario) (u : Usuario) (n : String)
    (h : n ≠ u.numero) :
    (reemplazarUsuario us u).find? (fun x => x.numero == n)
      = us.find? (fun x => x.numero == n) := by
  unfold reemplazarUsuario
  have hu : (u.numero == n) = false := by simpa using Ne.symm h
  induction us with
  | nil => simp [List.find?_cons, hu]
  | cons a r ih =>
    by_cases hn : a.numero = n
    · have ha : (a.numero != u.numero) = true := by simpa [hn] using h
      have hn2 : (a.numero == n) = true := by simpa using hn
      simp only [List.filter_cons, ha, if_true, List.cons_append, List.find?_cons, hn2]
    · have hn2 : (a.numero == n) = false := by simpa using hn
      by_cases ha : (a.numero != u.numero) = true
      · simp only [List.filter_cons, ha, if_true, List.cons_append, List.find?_cons, hn2]
        exact ih
      · simp only [List.filter_cons, ha, List.find?_cons, hn2]
        exact ih

/-! ## Operations under a working store and delivery -/

@[simp] theorem conEstado_fallosDb (m : Mundo) (n e : String) :
    (m.conEstado n e).fallosDb = m.fallosDb := rfl
@[simp] theorem conEstado_fallosHttp (m : Mundo) (n e : String) :
    (m.conEstado n e).fallosHttp = m.fallosHttp := rfl
@[simp] theorem conEstado_urlValida (m : Mundo) (n e : String) :
    (m.conEstado n e).urlValida = m.urlValida := rfl
@[simp] theorem conEstado_ahora (m : Mundo) (n e : String) :
    (m.conEstado n e).ahora = m.ahora := rfl
@[simp] theorem conEstado_mensajes (m : Mundo) (n e : String) :
    (m.conEstado n e).mensajes = m.mensajes := rfl
@[simp] theorem conEstado_peticiones (m : Mundo) (n e : String) :
    (m.conEstado n e).peticiones = m.peticiones := rfl
@[simp] theorem conEstado_messageTemplates (m : Mundo) (n e : String) :
    (m.conEstado n e).messageTemplates = m.messageTemplates := rfl
@[simp] theorem conEstado_usuarios (m : Mundo) (n e : String) :
    (m.conEstado n e).usuarios
      = reemplazarUsuario m.usuarios ⟨n, e, formatoFechaHora m.ahora⟩ := rfl

@[simp] theorem conMensaje_fallosDb (m : Mundo) (n t x : String) :
    (m.conMensaje n t x).fallosDb = m.fallosDb := rfl
@[simp] theorem conMensaje_fallosHttp (m : Mundo) (n t x : String) :
    (m.conMensaje n t x).fallosHttp = m.fallosHttp := rfl
@[simp] theorem conMensaje_urlValida (m : Mundo) (n t x : String) :
    (m.conMensaje n t x).urlValida = m.urlValida := rfl
@[simp] theorem conMensaje_ahora (m : Mundo) (n t x : String) :
    (m.conMensaje n t x).ahora = m.ahora := rfl
@[simp] theorem conMensaje_usuarios (m : Mundo) (n t x : String) :
    (m.conMensaje n t x).usuarios = m.usuarios := rfl
@[simp] theorem conMensaje_peticiones (m : Mundo) (n t x : String) :
    (m.conMensaje n t x).peticiones = m.peticiones := rfl
@[simp] theorem conMensaje_messageTemplates (m : Mundo) (n t x : String) :
    (m.conMensaje n t x).messageTemplates = m.messageTemplates := rfl
@[simp] theorem conMensaje_mensajes (m : Mundo) (n t x : String) :
    (m.conMensaje n t x).mensajes
      = m.mensajes ++ [⟨n, t, x, formatoFechaHora m.ahora⟩] := rfl

@[simp] theorem conPeticion_fallosDb (m : Mundo) (p : Payload) (b : Bool) :
    (m.conPeticion p b).fallosDb = m.fallosDb := rfl
@[simp] theorem conPeticion_fallosHttp (m : Mundo) (p : Payload) (b : Bool) :
    (m.conPeticion p b).fallosHttp = m.fallosHttp := rfl
@[simp] theorem conPeticion_urlValida (m : Mundo) (p : Payload) (b : Bool) :
    (m.conPeticion p b).urlValida = m.urlValida := rfl
@[simp] theorem conPeticion_ahora (m : Mundo) (p : Payload) (b : Bool) :
    (m.conPeticion p b).ahora = m.ahora := rfl
@[simp] theorem conPeticion_usuarios (m : Mundo) (p : Payload) (b : Bool) :
    (m.conPeticion p b).usuarios = m.usuarios := rfl
@[simp] theorem conPeticion_mensajes (m : Mundo) (p : Payload) (b : Bool) :
    (m.conPeticion p b).mensajes = m.mensajes := rfl
@[simp] theorem conPeticion_messageTemplates (m : Mundo) (p : Payload) (b : Bool) :
    (m.conPeticion p b).messageTemplates = m.messageTemplates := rfl
@[simp] theorem conPeticion_peticiones (m : Mundo) (p : Payload) (b : Bool) :
    (m.conPeticion p b).peticiones = m.peticiones ++ [⟨p, b⟩] := rfl

theorem actualizar_ok (n e : String) (m : Mundo) (h : m.fallosDb = []) :
    actualizarEstadoUsuario n e m = (none, m.conEstado n e) := by
  simp [actualizarEstadoUsuario, Mundo.turnoDb, h, Mundo.conEstado]

theorem guardar_ok (n tipo msj : String) (m : Mundo) (h : m.fallosDb = []) :
    guardarMensaje n tipo msj m = (none, m.conMensaje n tipo msj) := by
  simp [guardarMensaje, Mundo.turnoDb, h, Mundo.conMensaje]

theorem enviar_ok (n c : String) (m : Mundo) (hdb : m.fallosDb = []) (hhttp : m.fallosHttp = [])
    (hurl : m.urlValida = true) :
    enviarMensaje n c m
      = (m.conPeticion (Payload.template n (if c = "" then "greeting_es" else c) "es_AR")
          true).conMensaje n "ENVIADO"
            (buscarMensaje (if c = "" then "greeting_es" else c) m.messageTemplates) := by
  simp [enviarMensaje, Mundo.turnoHttp, guardarMensaje, Mundo.turnoDb, hdb, hhttp, hurl,
    Mundo.conPeticion, Mundo.conMensaje]

theorem obtener_fila (n : String) (m : Mundo) (u : Usuario) (t : Time) (hdb : m.fallosDb = [])
    (hf : m.usuarios.find? (fun x => x.numero == n) = some u)
    (hp : parseRFC3339 (escanearFecha u.fecha_actualizacion) = some t) :
    obtenerEstadoUsuario n m
      = ((estadoSegunPolitica u.estado t m.ahora, escanearFecha u.fecha_actualizacion, none), m) := by
  simp only [obtenerEstadoUsuario, Mundo.turnoDb, hdb, hf, hp, estadoSegunPolitica, antesDe,
    Time.Add, Hour, decide_eq_true_eq, estadoPrincipal, estadoAgente, Int.reduceMul,
    gt_iff_lt]
  congr 2
  by_cases h24 : t.unixNano + 86400000000000 < m.ahora.unixNano
  · have h24b : 86400000000000 < m.ahora.unixNano - t.unixNano := by omega
    simp [h24, h24b]
  · have h24b : ¬ (86400000000000 < m.ahora.unixNano - t.unixNano) := by omega
    simp only [h24, h24b, if_false]
    by_cases ha : u.estado = "AGENTE"
    · by_cases h4 : t.unixNano + 14400000000000 < m.ahora.unixNano
      · have h4b : 14400000000000 < m.ahora.unixNano - t.unixNano := by omega
        simp [ha, h4, h4b]
      · have h4b : ¬ (14400000000000 < m.ahora.unixNano - t.unixNano) := by omega
        simp [ha, h4, h4b]
    · simp [ha]

theorem obtener_sin_fila (n : String) (m : Mundo) (hdb : m.fallosDb = [])
    (hf : m.usuarios.find? (fun x => x.numero == n) = none) :
    obtenerEstadoUsuario n m = (("", "", none), m) := by
  simp [obtenerEstadoUsuario, Mundo.turnoDb, hdb, hf]

theorem estadoEfectivo_congr (n : String) (m m2 : Mundo) (h1 : m2.usuarios = m.usuarios)
    (h2 : m2.ahora = m.ahora) (h3 : m2.fallosDb = m.fallosDb) :
    estadoEfectivo n m2 = estadoEfectivo n m := by
  unfold estadoEfectivo obtenerEstadoUsuario Mundo.turnoDb
  rw [h3]
  cases hfd : m.fallosDb with
  | nil =>
    simp only [h1, h2]
    cases hfi : m.usuarios.find? (fun x => x.numero == n) with
    | none => rfl
    | some u =>
      simp only []
      cases hp : parseRFC3339 (escanearFecha u.fecha_actualizacion) with
      | none => rfl
      | some t => rfl
  | cons b r =>
    cases b
    · simp only [h1, h2]
      cases hfi : m.usuarios.find? (fun x => x.numero == n) with
      | none => rfl
      | some u =>
        simp only []
        cases hp : parseRFC3339 (escanearFecha u.fecha_actualizacion) with
        | none => rfl
        | some t => rfl
    · rfl

theorem politica_recien (t : Time) (h : t.valido) (e : String) (he : e ≠ "AGENTE") :
    estadoSegunPolitica e t.comoUTC t = e := by
  have h24 := no_vencido_24 t h
  simp only [antesDe, Time.Add, Hour, decide_eq_false_iff_not, Int.reduceMul] at h24
  have : ¬ (86400000000000 < t.unixNano - t.comoUTC.unixNano) := by omega
  simp [estadoSegunPolitica, Hour, this, he]

theorem obtener_tras_actualizar (n e : String) (m2 : Mundo) (us : List Usuario)
    (hdb : m2.fallosDb = []) (hreloj : m2.ahora.valido)
    (hus : m2.usuarios = reemplazarUsuario us ⟨n, e, formatoFechaHora m2.ahora⟩)
    (he : e ≠ "AGENTE") :
    obtenerEstadoUsuario n m2 = ((e, escanearFecha (formatoFechaHora m2.ahora), none), m2) := by
  have hf := find_reemplazar us ⟨n, e, formatoFechaHora m2.ahora⟩
  rw [← hus] at hf
  have hp := parseRFC3339_escanearFecha m2.ahora hreloj
  rw [obtener_fila n m2 ⟨n, e, formatoFechaHora m2.ahora⟩ m2.ahora.comoUTC hdb hf hp]
  simp only [politica_recien m2.ahora hreloj e he]

theorem estadoEfectivo_tras_actualizar (n e : String) (m2 : Mundo) (us : List Usuario)
    (hdb : m2.fallosDb = []) (hreloj : m2.ahora.valido)
    (hus : m2.usuarios = reemplazarUsuario us ⟨n, e, formatoFechaHora m2.ahora⟩)
    (he : e ≠ "AGENTE") (he2 : e ≠ "") :
    estadoEfectivo n m2 = some e := by
  unfold estadoEfectivo
  rw [obtener_tras_actualizar n e m2 us hdb hreloj hus he]
  simp only [he2, if_false]

/-- What `manejarOpcionMenuPrincipal` does for a sender whose effective state
is MENU_PRINCIPAL, with the store and the delivery working: one provider
request, the template of the transition table's row for the body, its catalog
text logged as ENVIADO, and the effective state of that row afterwards. -/
theorem menuPrincipal_transicion (numero opcion : String) (m : Mundo)
    (hdb : m.fallosDb = []) (hhttp : m.fallosHttp = []) (hurl : m.urlValida = true)
    (hreloj : m.ahora.valido) (hest : estadoEfectivo numero m = some "MENU_PRINCIPAL") :
    (manejarOpcionMenuPrincipal numero opcion m).peticiones
        = m.peticiones ++ [⟨Payload.template numero (tablaMenuPrincipal opcion).2 "es_AR", true⟩]
    ∧ (manejarOpcionMenuPrincipal numero opcion m).mensajes
        = m.mensajes ++ [⟨numero, "ENVIADO",
            buscarMensaje (tablaMenuPrincipal opcion).2 m.messageTemplates,
            formatoFechaHora m.ahora⟩]
    ∧ estadoEfectivo numero (manejarOpcionMenuPrincipal numero opcion m)
        = some (tablaMenuPrincipal opcion).1 := by
  by_cases h1 : opcion = "1"
  · subst h1
    have hget := obtener_tras_actualizar numero "TOURS" (m.conEstado numero "TOURS") m.usuarios
      hdb hreloj rfl (by decide)
    simp only [manejarOpcionMenuPrincipal, if_true, actualizar_ok _ _ m hdb, estadoTours, hget]
    rw [enviar_ok numero "tours_es" (m.conEstado numero "TOURS") hdb hhttp hurl]
    refine ⟨by simp [tablaMenuPrincipal], by simp [tablaMenuPrincipal], ?_⟩
    exact estadoEfectivo_tras_actualizar numero "TOURS" _ m.usuarios hdb hreloj rfl
      (by decide) (by decide)
  by_cases h2 : opcion = "2"
  · subst h2
    have hget := obtener_tras_actualizar numero "TRASLADOS" (m.conEstado numero "TRASLADOS")
      m.usuarios hdb hreloj rfl (by decide)
    simp only [manejarOpcionMenuPrincipal, actualizar_ok _ _ m hdb, estadoTraslados, hget]
    simp only [if_true]
    rw [enviar_ok numero "transport_es" (m.conEstado numero "TRASLADOS") hdb hhttp hurl]
    refine ⟨by simp [tablaMenuPrincipal], by simp [tablaMenuPrincipal], ?_⟩
    exact estadoEfectivo_tras_actualizar numero "TRASLADOS" _ m.usuarios hdb hreloj rfl
      (by decide) (by decide)
  by_cases h3 : opcion = "3" ∨ opcion = "4" ∨ opcion = "5" ∨ opcion = "6"
  · have hm : manejarOpcionMenuPrincipal numero opcion m = enviarMensaje numero "404_es" m := by
      unfold manejarOpcionMenuPrincipal
      rcases h3 with h | h | h | h <;> subst h <;> simp
    rw [hm, enviar_ok numero "404_es" m hdb hhttp hurl]
    have ht : tablaMenuPrincipal opcion = ("MENU_PRINCIPAL", "404_es") := by
      simp [tablaMenuPrincipal, h1, h2, h3]
    refine ⟨by simp [ht], by simp [ht], ?_⟩
    rw [ht, ← hest]
    exact estadoEfectivo_congr numero m _ rfl rfl rfl
  by_cases h4 : opcion = "agente"
  · subst h4
    have hm : manejarOpcionMenuPrincipal numero "agente" m = enviarMensaje numero "agent_es" m := by
      unfold manejarOpcionMenuPrincipal
      simp
    rw [hm, enviar_ok numero "agent_es" m hdb hhttp hurl]
    have ht : tablaMenuPrincipal "agente" = ("MENU_PRINCIPAL", "agent_es") := by
      simp [tablaMenuPrincipal]
    refine ⟨by simp [ht], by simp [ht], ?_⟩
    rw [ht, ← hest]
    exact estadoEfectivo_congr numero m _ rfl rfl rfl
  · have h3' : opcion ≠ "3" ∧ opcion ≠ "4" ∧ opcion ≠ "5" ∧ opcion ≠ "6" := by
      refine ⟨?_, ?_, ?_, ?_⟩ <;> intro h <;> exact h3 (by simp [h])
    have hm : manejarOpcionMenuPrincipal numero opcion m
        = enviarMensaje numero "greeting_es" (m.conEstado numero "MENU_PRINCIPAL") := by
      unfold manejarOpcionMenuPrincipal
      simp [h1, h2, h3'.1, h3'.2.1, h3'.2.2.1, h3'.2.2.2, h4, actualizar_ok _ _ m hdb,
        estadoPrincipal]
    rw [hm, enviar_ok numero "greeting_es" (m.conEstado numero "MENU_PRINCIPAL") hdb hhttp hurl]
    have ht : tablaMenuPrincipal opcion = ("MENU_PRINCIPAL", "greeting_es") := by
      simp [tablaMenuPrincipal, h1, h2, h3, h4]
    refine ⟨by simp [ht], by simp [ht], ?_⟩
    rw [ht]
    exact estadoEfectivo_tras_actualizar numero "MENU_PRINCIPAL" _ m.usuarios hdb hreloj rfl
      (by decide) (by decide)

theorem submenu_tours_eq_traslados (numero opcion : String) (m : Mundo) :
    manejarOpcionTours numero opcion m = manejarOpcionTraslados numero opcion m := rfl

theorem submenu_transicion (numero opcion estado : String) (m : Mundo)
    (hdb : m.fallosDb = []) (hhttp : m.fallosHttp = []) (hurl : m.urlValida = true)
    (hreloj : m.ahora.valido) (hest : estadoEfectivo numero m = some estado) :
    (manejarOpcionTours numero opcion m).peticiones
        = m.peticiones ++ [⟨Payload.template numero (tablaSubmenu estado opcion).2 "es_AR", true⟩]
    ∧ estadoEfectivo numero (manejarOpcionTours numero opcion m)
        = some (tablaSubmenu estado opcion).1
    ∧ (opcion ≠ "1" → opcion ≠ "2" →
        (manejarOpcionTours numero opcion m).usuarios
          = reemplazarUsuario m.usuarios ⟨numero, "MENU_PRINCIPAL", formatoFechaHora m.ahora⟩)
    ∧ (opcion = "1" ∨ opcion = "2" → (manejarOpcionTours numero opcion m).usuarios = m.usuarios) := by
  by_cases h12 : opcion = "1" ∨ opcion = "2"
  · have hm : manejarOpcionTours numero opcion m = enviarMensaje numero "404_es" m := by
      unfold manejarOpcionTours
      rcases h12 with h | h <;> subst h <;> simp
    rw [hm, enviar_ok numero "404_es" m hdb hhttp hurl]
    have ht : tablaSubmenu estado opcion = (estado, "404_es") := by
      simp [tablaSubmenu, h12]
    refine ⟨by simp [ht], ?_, ?_, fun _ => rfl⟩
    · rw [ht, ← hest]
      exact estadoEfectivo_congr numero m _ rfl rfl rfl
    · intro n1 n2
      rcases h12 with h | h
      · exact absurd h n1
      · exact absurd h n2
  · have h1 : opcion ≠ "1" := fun h => h12 (Or.inl h)
    have h2 : opcion ≠ "2" := fun h => h12 (Or.inr h)
    have hm : manejarOpcionTours numero opcion m
        = enviarMensaje numero "greeting_es" (m.conEstado numero "MENU_PRINCIPAL") := by
      unfold manejarOpcionTours
      simp [h1, h2, actualizar_ok _ _ m hdb, estadoPrincipal]
    rw [hm, enviar_ok numero "greeting_es" (m.conEstado numero "MENU_PRINCIPAL") hdb hhttp hurl]
    have ht : tablaSubmenu estado opcion = ("MENU_PRINCIPAL", "greeting_es") := by
      simp [tablaSubmenu, h12]
    refine ⟨by simp [ht], ?_, fun _ _ => rfl, fun h => absurd h h12⟩
    rw [ht]
    exact estadoEfectivo_tras_actualizar numero "MENU_PRINCIPAL" _ m.usuarios hdb hreloj rfl
      (by decide) (by decide)

/-- The expiry policy on the timestamp as the getter reads it: for a stored
row with state `u.estado` whose column reads as `t`, `obtenerEstadoUsuario`
returns no error and MENU_PRINCIPAL if now - t > 24h, or if the state is
AGENTE and now - t > 4h, otherwise the stored state; at exactly 24h a state
other than AGENTE, and at exactly 4h the state AGENTE, come back unchanged. -/
theorem obtener_politica_sobre_lectura (numero : String) (m : Mundo) (u : Usuario) (t : Time)
    (hdb : m.fallosDb = [])
    (hfila : m.usuarios.find? (fun x => x.numero == numero) = some u)
    (hfecha : parseRFC3339 (escanearFecha u.fecha_actualizacion) = some t) :
    (obtenerEstadoUsuario numero m).1.2.2 = none
    ∧ (obtenerEstadoUsuario numero m).1.1 = estadoSegunPolitica u.estado t m.ahora
    ∧ (m.ahora.unixNano - t.unixNano = 24 * Hour → u.estado ≠ "AGENTE" →
        (obtenerEstadoUsuario numero m).1.1 = u.estado)
    ∧ (m.ahora.unixNano - t.unixNano = 4 * Hour → u.estado = "AGENTE" →
        (obtenerEstadoUsuario numero m).1.1 = "AGENTE") := by
  rw [obtener_fila numero m u t hdb hfila hfecha]
  refine ⟨rfl, rfl, ?_, ?_⟩
  · intro h24 ha
    simp [estadoSegunPolitica, h24, ha]
  · intro h4 ha
    simp [estadoSegunPolitica, h4, ha, Hour]

/-- The policy on the timestamp as read, at an AGENTE row that reads as 4 hours
old and a TOURS row that reads as 24 hours old. -/
theorem obtener_politica_sobre_lectura_ejemplo :
    (obtenerEstadoUsuario remitenteEjemplo (mundoCon "AGENTE" "2024-03-05 08:00:00")).1.1
      = "AGENTE"
    ∧ (obtenerEstadoUsuario remitenteEjemplo (mundoCon "TOURS" "2024-03-04 12:00:00")).1.1
      = "TOURS" :=
  ⟨(obtener_politica_sobre_lectura remitenteEjemplo (mundoCon "AGENTE" "2024-03-05 08:00:00")
      ⟨remitenteEjemplo, "AGENTE", "2024-03-05 08:00:00"⟩ ⟨2024, 3, 5, 8, 0, 0, 0, 0⟩
      rfl (by decide) (by decide)).2.2.2 (by decide) rfl,
   (obtener_politica_sobre_lectura remitenteEjemplo (mundoCon "TOURS" "2024-03-04 12:00:00")
      ⟨remitenteEjemplo, "TOURS", "2024-03-04 12:00:00"⟩ ⟨2024, 3, 4, 12, 0, 0, 0, 0⟩
      rfl (by decide) (by decide)).2.2.1 (by decide) (by decide)⟩


theorem find_none_of_sin_fila (numero : String) (us : List Usuario)
    (h : ∀ u ∈ us, u.numero ≠ numero) :
    us.find? (fun x => x.numero == numero) = none := by
  simp only [List.find?_eq_none, beq_iff_eq]
  exact h

/-- C4: for a sender without a row, `obtenerEstadoUsuario` returns the empty
state with a nil error, the state the webhook handler dispatches on is
MENU_PRINCIPAL, and the handler runs `manejarOpcionMenuPrincipal` on the
message after logging it. -/
theorem C4_sin_registro (numero body : String) (m : Mundo) (hdb : m.fallosDb = [])
    (hsin : ∀ u ∈ m.usuarios, u.numero ≠ numero) :
    obtenerEstadoUsuario numero m = (("", "", none), m)
    ∧ estadoEfectivo numero m = some "MENU_PRINCIPAL"
    ∧ handleWebhookEvento numero body m
        = (none, manejarOpcionMenuPrincipal numero body (m.conMensaje numero "RECIBIDO" body)) := by
  have hget := obtener_sin_fila numero m hdb (find_none_of_sin_fila numero m.usuarios hsin)
  refine ⟨hget, ?_, ?_⟩
  · simp [estadoEfectivo, hget, estadoPrincipal]
  · have hget2 := obtener_sin_fila numero (m.conMensaje numero "RECIBIDO" body) hdb
      (find_none_of_sin_fila numero m.usuarios hsin)
    simp [handleWebhookEvento, guardar_ok _ _ _ m hdb, hget2]

/-- C4 at the example sender in the world with empty tables. -/
theorem C4_sin_registro_witness :
    obtenerEstadoUsuario remitenteEjemplo mundoInicial = (("", "", none), mundoInicial)
    ∧ estadoEfectivo remitenteEjemplo mundoInicial = some "MENU_PRINCIPAL" :=
  have h := C4_sin_registro remitenteEjemplo "hola" mundoInicial rfl (by decide)
  ⟨h.1, h.2.1⟩

/-- The "/cerrar" branch on the timestamp as the getter reads it: for a sender
whose row reads as at most 24 hours old, a POST with contenido "/cerrar"
writes state MENU_PRINCIPAL, issues exactly one provider request, the template
goodbye_es, logs the catalog text of goodbye_es as ENVIADO and writes no
status; no new request carries "/cerrar" as a text message and the sender's
row is not AGENTE. -/
theorem cerrar_en_ventana_leida (r : Request) (m : Mundo) (campos : List (String × JSON))
    (numero : String) (u : Usuario) (t : Time)
    (hmetodo : r.Method = "POST") (hcuerpo : r.Body = Cuerpo.documento (JSON.object campos))
    (hnumero : indice campos "numero" = some (JSON.string numero))
    (hcontenido : indice campos "contenido" = some (JSON.string "/cerrar"))
    (hdb : m.fallosDb = []) (hhttp : m.fallosHttp = []) (hurl : m.urlValida = true)
    (hfila : m.usuarios.find? (fun x => x.numero == numero) = some u)
    (hfecha : parseRFC3339 (escanearFecha u.fecha_actualizacion) = some t)
    (hreciente : m.ahora.unixNano - t.unixNano ≤ 24 * Hour) :
    (enviarMensajeSinPlantilla r m).1 = none
    ∧ (enviarMensajeSinPlantilla r m).2.usuarios
        = reemplazarUsuario m.usuarios ⟨numero, "MENU_PRINCIPAL", formatoFechaHora m.ahora⟩
    ∧ (enviarMensajeSinPlantilla r m).2.peticiones
        = m.peticiones ++ [⟨Payload.template numero "goodbye_es" "es_AR", true⟩]
    ∧ (enviarMensajeSinPlantilla r m).2.mensajes
        = m.mensajes ++ [⟨numero, "ENVIADO", buscarMensaje "goodbye_es" m.messageTemplates,
            formatoFechaHora m.ahora⟩]
    ∧ (∀ p ∈ (enviarMensajeSinPlantilla r m).2.peticiones,
        p ∈ m.peticiones ∨ p.payload ≠ Payload.text numero "/cerrar")
    ∧ (∀ f ∈ (enviarMensajeSinPlantilla r m).2.usuarios, f.numero = numero → f.estado ≠ "AGENTE") := by
  have hget := obtener_fila numero m u t hdb hfila hfecha
  have hno : antesDe (t.Add (Hour * 24)) m.ahora = false := by
    simp only [Hour] at hreciente
    simp only [antesDe, Time.Add, Hour, decide_eq_false_iff_not]
    omega
  have hres : enviarMensajeSinPlantilla r m
      = (none, enviarMensaje numero "goodbye_es" (m.conEstado numero "MENU_PRINCIPAL")) := by
    simp [enviarMensajeSinPlantilla, hmetodo, hcuerpo, decodificarMapa, hnumero, hcontenido,
      comoCadena, hget, hfecha, hno, actualizar_ok _ _ m hdb, estadoPrincipal]
  rw [hres, enviar_ok numero "goodbye_es" (m.conEstado numero "MENU_PRINCIPAL") hdb hhttp hurl]
  refine ⟨rfl, rfl, by simp, by simp, ?_, ?_⟩
  · intro p hp
    simp at hp
    rcases hp with hp | hp
    · exact Or.inl hp
    · right; rw [hp]; simp
  · intro f hf hfn
    simp [reemplazarUsuario] at hf
    rcases hf with ⟨_, hne⟩ | hf
    · exact absurd hfn hne
    · rw [hf]; simp


/-- The "/cerrar" branch at the example sender, whose AGENTE row reads as one
hour old. -/
theorem cerrar_en_ventana_leida_ejemplo :
    (enviarMensajeSinPlantilla (peticionLibre remitenteEjemplo "/cerrar")
        (mundoCon "AGENTE" "2024-03-05 11:00:00")).2.usuarios
      = [⟨remitenteEjemplo, "MENU_PRINCIPAL", "2024-03-05 12:00:00"⟩]
    ∧ (enviarMensajeSinPlantilla (peticionLibre remitenteEjemplo "/cerrar")
        (mundoCon "AGENTE" "2024-03-05 11:00:00")).2.peticiones
      = [⟨Payload.template remitenteEjemplo "goodbye_es" "es_AR", true⟩]
    ∧ (enviarMensajeSinPlantilla (peticionLibre remitenteEjemplo "/cerrar")
        (mundoCon "AGENTE" "2024-03-05 11:00:00")).2.mensajes
      = [⟨remitenteEjemplo, "ENVIADO", "Adios", "2024-03-05 12:00:00"⟩] :=
  have h := cerrar_en_ventana_leida (peticionLibre remitenteEjemplo "/cerrar")
    (mundoCon "AGENTE" "2024-03-05 11:00:00")
    [("numero", JSON.string remitenteEjemplo), ("contenido", JSON.string "/cerrar")]
    remitenteEjemplo ⟨remitenteEjemplo, "AGENTE", "2024-03-05 11:00:00"⟩
    ⟨2024, 3, 5, 11, 0, 0, 0, 0⟩ rfl rfl (by rfl) (by rfl) rfl rfl rfl
    (by decide) (by decide) (by decide)
  ⟨h.2.1, h.2.2.1, h.2.2.2.1⟩

/-- The 24-hour check on the timestamp as the getter reads it: a POST to the
free-text endpoint for a sender whose row reads as more than 24 hours old is
answered with status 400 and leaves the world as it was. -/
theorem rechazo_fuera_de_ventana_leida (r : Request) (m : Mundo) (campos : List (String × JSON))
    (numero contenido : String) (u : Usuario) (t : Time)
    (hmetodo : r.Method = "POST") (hcuerpo : r.Body = Cuerpo.documento (JSON.object campos))
    (hnumero : indice campos "numero" = some (JSON.string numero))
    (hcontenido : indice campos "contenido" = some (JSON.string contenido))
    (hdb : m.fallosDb = [])
    (hfila : m.usuarios.find? (fun x => x.numero == numero) = some u)
    (hfecha : parseRFC3339 (escanearFecha u.fecha_actualizacion) = some t)
    (hviejo : m.ahora.unixNano - t.unixNano > 24 * Hour) :
    enviarMensajeSinPlantilla r m = (some 400, m) := by
  have hget := obtener_fila numero m u t hdb hfila hfecha
  have hsi : antesDe (t.Add (Hour * 24)) m.ahora = true := by
    simp only [Hour] at hviejo
    simp only [antesDe, Time.Add, Hour, decide_eq_true_eq]
    omega
  simp [enviarMensajeSinPlantilla, hmetodo, hcuerpo, decodificarMapa, hnumero, hcontenido,
    comoCadena, hget, hfecha, hsi]

theorem conEstado_funciona (m : Mundo) (n e : String) (h : m.almacenFunciona) :
    (m.conEstado n e).almacenFunciona := by
  obtain ⟨h1, h2, h3⟩ := h
  refine ⟨h1, h2, ?_⟩
  intro u hu
  simp only [conEstado_usuarios, reemplazarUsuario, List.mem_append, List.mem_filter,
    List.mem_singleton] at hu
  rcases hu with ⟨hu, _⟩ | hu
  · exact h3 u hu
  · rw [hu]
    simp only [parseRFC3339_escanearFecha m.ahora h2]
    exact Option.some_ne_none _

theorem funciona_congr (m m2 : Mundo) (h : m.almacenFunciona) (h1 : m2.usuarios = m.usuarios)
    (h2 : m2.ahora = m.ahora) (h3 : m2.fallosDb = m.fallosDb) : m2.almacenFunciona := by
  obtain ⟨a, b, c⟩ := h
  refine ⟨by rw [h3, a], by rw [h2]; exact b, ?_⟩
  intro u hu
  rw [h1] at hu
  exact c u hu

theorem enviar_funciona (n c : String) (m : Mundo) (h : m.almacenFunciona) :
    (enviarMensaje n c m).almacenFunciona := by
  unfold enviarMensaje
  cases hurl : m.urlValida with
  | false => simpa using h
  | true =>
    cases hh : m.fallosHttp with
    | nil =>
      simp only [Mundo.turnoHttp, hh, guardarMensaje, Mundo.turnoDb, h.1]
      exact funciona_congr m _ h rfl rfl h.1.symm
    | cons b r =>
      cases b
      · simp only [Mundo.turnoHttp, hh, guardarMensaje, Mundo.turnoDb, h.1]
        exact funciona_congr m _ h rfl rfl h.1.symm
      · simp only [Mundo.turnoHttp, hh]
        exact funciona_congr m _ h rfl rfl rfl

theorem obtener_funciona (n : String) (m : Mundo) (h : m.almacenFunciona) :
    ∃ e f, obtenerEstadoUsuario n m = ((e, f, none), m) := by
  obtain ⟨h1, h2, h3⟩ := h
  cases hf : m.usuarios.find? (fun x => x.numero == n) with
  | none => exact ⟨"", "", obtener_sin_fila n m h1 hf⟩
  | some u =>
    have hu : u ∈ m.usuarios := List.mem_of_find?_eq_some hf
    cases hp : parseRFC3339 (escanearFecha u.fecha_actualizacion) with
    | none => exact absurd hp (h3 u hu)
    | some t => exact ⟨_, _, obtener_fila n m u t h1 hf hp⟩

/-- The 24-hour check at the example sender, whose row reads as 25 hours old. -/
theorem rechazo_fuera_de_ventana_leida_ejemplo :
    enviarMensajeSinPlantilla (peticionLibre remitenteEjemplo "hola")
        (mundoCon "TOURS" "2024-03-04 11:00:00")
      = (some 400, mundoCon "TOURS" "2024-03-04 11:00:00") :=
  rechazo_fuera_de_ventana_leida (peticionLibre remitenteEjemplo "hola")
    (mundoCon "TOURS" "2024-03-04 11:00:00")
    [("numero", JSON.string remitenteEjemplo), ("contenido", JSON.string "hola")]
    remitenteEjemplo "hola" ⟨remitenteEjemplo, "TOURS", "2024-03-04 11:00:00"⟩
    ⟨2024, 3, 4, 11, 0, 0, 0, 0⟩ rfl rfl (by rfl) (by rfl) rfl
    (by decide) (by decide) (by decide)

/-! ## Round trip, matching, dispatcher log, webhook batches -/

/-- The text the setter writes is not itself in layout RFC3339: the getter's
parse rejects it when it is handed back unchanged. -/
theorem parseRFC3339_formatoFechaHora (t : Time) (h : t.valido) :
    parseRFC3339 (formatoFechaHora t) = none := by
  obtain ⟨hy, hm1, hm2, hd1, hd2, hh, hmi, hs, hn, ho1, ho2⟩ := h
  have hd3 := diasDelMes_le t.month t.year
  have hmo : t.month < 100 := by omega
  have hd : t.day < 100 := by omega
  simp [parseRFC3339, parseRFC3339Lista, formatoFechaHora, cuatroDigitos, dosDigitos, hy, hmo,
    hd, leerCuatro, leerDos, leerLiteral, esDigito_digito, valorDigito_digito]

/-- Writing AGENTE and reading it back at the same clock reading: the state
comes back as AGENTE exactly when the zone offset of the clock keeps the row
within 4 hours, else as MENU_PRINCIPAL; in both cases without error. -/
theorem obtener_tras_actualizar_agente (n : String) (m : Mundo) (hdb : m.fallosDb = [])
    (hreloj : m.ahora.valido) :
    (obtenerEstadoUsuario n (actualizarEstadoUsuario n "AGENTE" m).2).1
      = (if m.ahora.offset * 1000000000 + 14400000000000 < m.ahora.nano then "MENU_PRINCIPAL"
         else "AGENTE", escanearFecha (formatoFechaHora m.ahora), none) := by
  have hf := find_reemplazar m.usuarios ⟨n, "AGENTE", formatoFechaHora m.ahora⟩
  have hp := parseRFC3339_escanearFecha m.ahora hreloj
  rw [actualizar_ok n "AGENTE" m hdb,
    obtener_fila n (m.conEstado n "AGENTE") ⟨n, "AGENTE", formatoFechaHora m.ahora⟩
      m.ahora.comoUTC hdb hf hp]
  have h24 := no_vencido_24 m.ahora hreloj
  have h4 := vencido_4_iff m.ahora
  simp only [antesDe, Time.Add, Hour, decide_eq_false_iff_not, decide_eq_true_eq,
    Int.reduceMul] at h24 h4
  have h24b : ¬ (86400000000000 < m.ahora.unixNano - m.ahora.comoUTC.unixNano) := by omega
  have h4b : (14400000000000 < m.ahora.unixNano - m.ahora.comoUTC.unixNano)
      ↔ m.ahora.offset * 1000000000 + 14400000000000 < m.ahora.nano := by
    rw [← h4]; constructor <;> intro hx <;> omega
  simp only [estadoSegunPolitica, conEstado_ahora, Hour, Int.reduceMul, gt_iff_lt, h24b,
    if_false, true_and, h4b]

/-- C5, evaluated at a process whose local zone is UTC-05:00: the setter
succeeds and stores AGENTE with the local wall-clock text, the getter that
follows immediately returns MENU_PRINCIPAL with no error (the column reads
back as 07:00 UTC, five hours before the clock), and the text the setter
wrote is itself rejected by the getter's RFC3339 parse. -/
theorem C5_ida_y_vuelta_agente :
    relojOeste.valido
    ∧ (actualizarEstadoUsuario remitenteEjemplo "AGENTE" mundoOeste).1 = none
    ∧ (obtenerEstadoUsuario remitenteEjemplo
        (actualizarEstadoUsuario remitenteEjemplo "AGENTE" mundoOeste).2).1
      = ("MENU_PRINCIPAL", "2024-03-05T07:00:00Z", none)
    ∧ (actualizarEstadoUsuario remitenteEjemplo "AGENTE" mundoOeste).2.usuarios
      = [⟨remitenteEjemplo, "AGENTE", "2024-03-05 07:00:00"⟩]
    ∧ parseRFC3339 "2024-03-05 07:00:00" = none := by
  decide

/-- C10, counterexample: for a sender in state MENU_PRINCIPAL the body " 1 ",
whose trimmed form is the option "1", is handled by `handleWebhook` with the
default row: state MENU_PRINCIPAL is written and greeting_es is sent, not
tours_es. -/
theorem C10_sin_recorte_contraejemplo :
    recortar " 1 " = "1"
    ∧ estadoEfectivo remitenteEjemplo mundoInicial = some "MENU_PRINCIPAL"
    ∧ handleWebhook ⟨"POST", Cuerpo.documento (cargaWebhook remitenteEjemplo " 1 ")⟩ mundoInicial
      = (200, { mundoInicial with
          usuarios := [⟨remitenteEjemplo, "MENU_PRINCIPAL", "2024-03-05 12:00:00"⟩],
          mensajes := [⟨remitenteEjemplo, "RECIBIDO", " 1 ", "2024-03-05 12:00:00"⟩,
            ⟨remitenteEjemplo, "ENVIADO", "Hola", "2024-03-05 12:00:00"⟩],
          peticiones := [⟨Payload.template remitenteEjemplo "greeting_es" "es_AR", true⟩] }) := by
  decide

theorem recortar_opcion (o : String) (h : o ∈ opcionesMenu) : recortar o = o := by
  simp only [opcionesMenu, List.mem_cons, List.mem_singleton, List.not_mem_nil, or_false] at h
  rcases h with h | h | h | h | h | h | h <;> subst h <;> decide

/-- C10, amended: option matching is done on the body as received. A body
that differs from its whitespace-trimmed form (so also one whose trimmed form
is a menu option, as " 1 " or "1\n") takes the default row of MENU_PRINCIPAL:
state MENU_PRINCIPAL is written and greeting_es is sent. -/
theorem C10_coincidencia_exacta (numero body : String) (m : Mundo)
    (hdb : m.fallosDb = []) (hhttp : m.fallosHttp = []) (hurl : m.urlValida = true)
    (hdif : body ≠ recortar body) :
    (manejarOpcionMenuPrincipal numero body m).peticiones
        = m.peticiones ++ [⟨Payload.template numero "greeting_es" "es_AR", true⟩]
    ∧ (manejarOpcionMenuPrincipal numero body m).usuarios
        = reemplazarUsuario m.usuarios ⟨numero, "MENU_PRINCIPAL", formatoFechaHora m.ahora⟩ := by
  have hno : body ∉ opcionesMenu := by
    intro hb
    exact hdif (recortar_opcion body hb).symm
  simp only [opcionesMenu, List.mem_cons, List.mem_singleton, List.not_mem_nil, or_false,
    not_or] at hno
  obtain ⟨h1, h2, h3, h4, h5, h6, h7⟩ := hno
  have hm : manejarOpcionMenuPrincipal numero body m
      = enviarMensaje numero "greeting_es" (m.conEstado numero "MENU_PRINCIPAL") := by
    unfold manejarOpcionMenuPrincipal
    simp [h1, h2, h3, h4, h5, h6, h7, actualizar_ok _ _ m hdb, estadoPrincipal]
  rw [hm, enviar_ok numero "greeting_es" (m.conEstado numero "MENU_PRINCIPAL") hdb hhttp hurl]
  exact ⟨by simp, rfl⟩

/-- C10, amended, at the body "1\n" in the initial world. -/
theorem C10_coincidencia_exacta_witness :
    (manejarOpcionMenuPrincipal remitenteEjemplo "1\n" mundoInicial).peticiones
        = [⟨Payload.template remitenteEjemplo "greeting_es" "es_AR", true⟩]
    ∧ (manejarOpcionMenuPrincipal remitenteEjemplo "1\n" mundoInicial).usuarios
        = [⟨remitenteEjemplo, "MENU_PRINCIPAL", "2024-03-05 12:00:00"⟩] :=
  C10_coincidencia_exacta remitenteEjemplo "1\n" mundoInicial rfl rfl rfl (by decide)

/-- C9, counterexample: no catalog entry has the empty id, yet
`enviarMensaje` with the empty template id logs the catalog text of
greeting_es, not the empty string. -/
theorem C9_plantilla_vacia_contraejemplo :
    (∀ t ∈ mundoInicial.messageTemplates, t.ID ≠ "")
    ∧ (enviarMensaje remitenteEjemplo "" mundoInicial).mensajes
      = [⟨remitenteEjemplo, "ENVIADO", "Hola", "2024-03-05 12:00:00"⟩] := by
  decide

/-- The cases of `enviarMensaje`: the log is left as it was, or it grows by one
ENVIADO entry after a provider request that got a response; the entry's body
is what the search loop finds for the template name. -/
theorem enviar_registro_casos (numero contenido : String) (m : Mundo) :
    ((enviarMensaje numero contenido m).mensajes = m.mensajes
      ∨ ((enviarMensaje numero contenido m).mensajes
          = m.mensajes ++ [⟨numero, "ENVIADO",
              buscarMensaje (if contenido = "" then "greeting_es" else contenido)
                m.messageTemplates, formatoFechaHora m.ahora⟩]
        ∧ (enviarMensaje numero contenido m).peticiones
          = m.peticiones ++ [⟨Payload.template numero
              (if contenido = "" then "greeting_es" else contenido) "es_AR", true⟩]))
    ∧ (m.urlValida = true → m.fallosHttp.head? ≠ some true →
        (enviarMensaje numero contenido m).peticiones
          = m.peticiones ++ [⟨Payload.template numero
              (if contenido = "" then "greeting_es" else contenido) "es_AR", true⟩]
        ∧ (m.fallosDb.head? ≠ some true →
            (enviarMensaje numero contenido m).mensajes
              = m.mensajes ++ [⟨numero, "ENVIADO",
                  buscarMensaje (if contenido = "" then "greeting_es" else contenido)
                    m.messageTemplates, formatoFechaHora m.ahora⟩]))
    ∧ (m.urlValida = true → m.fallosHttp.head? = some true →
        (enviarMensaje numero contenido m).mensajes = m.mensajes
        ∧ (enviarMensaje numero contenido m).peticiones
          = m.peticiones ++ [⟨Payload.template numero
              (if contenido = "" then "greeting_es" else contenido) "es_AR", false⟩]) := by
  unfold enviarMensaje
  cases hurl : m.urlValida with
  | false => simp
  | true =>
    cases hh : m.fallosHttp with
    | nil =>
      cases hd : m.fallosDb with
      | nil => simp [Mundo.turnoHttp, hh, guardarMensaje, Mundo.turnoDb, hd]
      | cons b r => cases b <;> simp [Mundo.turnoHttp, hh, guardarMensaje, Mundo.turnoDb, hd]
    | cons c r =>
      cases c
      · cases hd : m.fallosDb with
        | nil => simp [Mundo.turnoHttp, hh, guardarMensaje, Mundo.turnoDb, hd]
        | cons b r => cases b <;> simp [Mundo.turnoHttp, hh, guardarMensaje, Mundo.turnoDb, hd]
      · simp [Mundo.turnoHttp, hh]

theorem manejarEventos_append (a b : List (String × String)) (m : Mundo) :
    manejarEventos (a ++ b) m = manejarEventos b (manejarEventos a m) := by
  induction a generalizing m with
  | nil => rfl
  | cons x r ih =>
    obtain ⟨f, t⟩ := x
    exact ih _

theorem menuPrincipal_funciona (n o : String) (m : Mundo) (h : m.almacenFunciona) :
    (manejarOpcionMenuPrincipal n o m).almacenFunciona := by
  have hc : ∀ e, (m.conEstado n e).almacenFunciona := fun e => conEstado_funciona m n e h
  unfold manejarOpcionMenuPrincipal
  simp only [actualizar_ok _ _ m h.1]
  split_ifs
  · obtain ⟨e, f, hg⟩ := obtener_funciona n _ (hc estadoTours)
    rw [hg]; exact enviar_funciona _ _ _ (hc _)
  · obtain ⟨e, f, hg⟩ := obtener_funciona n _ (hc estadoTraslados)
    rw [hg]; exact enviar_funciona _ _ _ (hc _)
  all_goals first | exact enviar_funciona _ _ _ h | exact enviar_funciona _ _ _ (hc _)

theorem submenu_funciona (n o : String) (m : Mundo) (h : m.almacenFunciona) :
    (manejarOpcionTours n o m).almacenFunciona := by
  have hc : ∀ e, (m.conEstado n e).almacenFunciona := fun e => conEstado_funciona m n e h
  unfold manejarOpcionTours
  simp only [actualizar_ok _ _ m h.1]
  split_ifs
  all_goals first | exact enviar_funciona _ _ _ h | exact enviar_funciona _ _ _ (hc _)

theorem evento_funciona (n b : String) (m : Mundo) (h : m.almacenFunciona) :
    (handleWebhookEvento n b m).1 = none ∧ (handleWebhookEvento n b m).2.almacenFunciona := by
  have h1 : (m.conMensaje n "RECIBIDO" b).almacenFunciona := funciona_congr m _ h rfl rfl rfl
  obtain ⟨e, f, hg⟩ := obtener_funciona n _ h1
  unfold handleWebhookEvento
  simp only [guardar_ok _ _ _ m h.1, hg]
  split_ifs
  all_goals first
    | exact ⟨rfl, menuPrincipal_funciona _ _ _ h1⟩
    | exact ⟨rfl, submenu_funciona _ _ _ h1⟩
    | exact ⟨rfl, h1⟩

theorem manejarEventos_funciona (es : List (String × String)) (m : Mundo)
    (h : m.almacenFunciona) : (manejarEventos es m).almacenFunciona := by
  induction es generalizing m with
  | nil => exact h
  | cons x r ih =>
    obtain ⟨f, t⟩ := x
    exact ih _ (evento_funciona f t m h).2

theorem mensaje_refina (x : JSON) (m : Mundo) (h : m.almacenFunciona) :
    handleWebhookMensaje x m = (none, manejarEventos (eventoDeMensaje x) m) := by
  unfold handleWebhookMensaje eventoDeMensaje
  cases x with
  | object mm =>
    simp only [comoMapa]
    cases hf : indice mm "from" with
    | none => simp [comoCadena, manejarEventos]
    | some jf =>
      cases jf with
      | string f =>
        simp only [comoCadena]
        cases ht : indice mm "text" with
        | none => simp [comoMapa, manejarEventos]
        | some jt =>
          cases jt with
          | object tx =>
            simp only [comoMapa]
            cases hb : indice tx "body" with
            | none => simp [comoCadena, manejarEventos]
            | some jb =>
              cases jb with
              | string b =>
                simp only [comoCadena, manejarEventos]
                exact Prod.ext (evento_funciona f b m h).1 rfl
              | _ => simp [comoCadena, manejarEventos]
          | _ => simp [comoMapa, manejarEventos]
      | _ => simp [comoCadena, manejarEventos]
  | _ => simp [comoMapa, manejarEventos]

theorem mensajes_refina (ms : List JSON) (m : Mundo) (h : m.almacenFunciona) :
    handleWebhookMensajes ms m = (none, manejarEventos (eventosDeLista eventoDeMensaje ms) m) := by
  induction ms generalizing m with
  | nil => rfl
  | cons x r ih =>
    simp only [handleWebhookMensajes, mensaje_refina x m h, eventosDeLista,
      manejarEventos_append]
    exact ih _ (manejarEventos_funciona _ m h)

theorem cambio_refina (x : JSON) (m : Mundo) (h : m.almacenFunciona) :
    handleWebhookCambio x m = (none, manejarEventos (eventosDeCambio x) m) := by
  unfold handleWebhookCambio eventosDeCambio
  cases x with
  | object cm =>
    simp only [comoMapa]
    cases hv : indice cm "value" with
    | none => simp [comoMapa, manejarEventos]
    | some jv =>
      cases jv with
      | object v =>
        simp only [comoMapa]
        cases hm : indice v "messages" with
        | none => simp [comoArreglo, manejarEventos]
        | some jm =>
          cases jm with
          | array ms =>
            simp only [comoArreglo]
            cases ms with
            | nil => simp [eventosDeLista, manejarEventos]
            | cons y r =>
              simp only [List.length_cons, Nat.succ_ne_zero, if_false]
              exact mensajes_refina _ m h
          | _ => simp [comoArreglo, manejarEventos]
      | _ => simp [comoMapa, manejarEventos]
  | _ => simp [comoMapa, manejarEventos]

theorem cambios_refina (cs : List JSON) (m : Mundo) (h : m.almacenFunciona) :
    handleWebhookCambios cs m = (none, manejarEventos (eventosDeLista eventosDeCambio cs) m) := by
  induction cs generalizing m with
  | nil => rfl
  | cons x r ih =>
    simp only [handleWebhookCambios, cambio_refina x m h, eventosDeLista,
      manejarEventos_append]
    exact ih _ (manejarEventos_funciona _ m h)

theorem entrada_refina (x : JSON) (m : Mundo) (h : m.almacenFunciona) :
    handleWebhookEntrada x m = (none, manejarEventos (eventosDeEntrada x) m) := by
  unfold handleWebhookEntrada eventosDeEntrada
  cases x with
  | object em =>
    simp only [comoMapa]
    cases hc : indice em "changes" with
    | none => simp [comoArreglo, manejarEventos]
    | some jc =>
      cases jc with
      | array cs =>
        simp only [comoArreglo]
        cases cs with
        | nil => simp [eventosDeLista, manejarEventos]
        | cons y r =>
          simp only [List.length_cons, Nat.succ_ne_zero, if_false]
          exact cambios_refina _ m h
      | _ => simp [comoArreglo, manejarEventos]
  | _ => simp [comoMapa, manejarEventos]

theorem entradas_refina (es : List JSON) (m : Mundo) (h : m.almacenFunciona) :
    handleWebhookEntradas es m
      = (none, manejarEventos (eventosDeLista eventosDeEntrada es) m) := by
  induction es generalizing m with
  | nil => rfl
  | cons x r ih =>
    simp only [handleWebhookEntradas, entrada_refina x m h, eventosDeLista,
      manejarEventos_append]
    exact ih _ (manejarEventos_funciona _ m h)

theorem enviar_observa (n c : String) (m : Mundo) :
    (enviarMensaje n c m).ahora = m.ahora ∧ recibidos (enviarMensaje n c m) = recibidos m := by
  unfold enviarMensaje recibidos
  cases hurl : m.urlValida with
  | false => simp
  | true =>
    cases hh : m.fallosHttp with
    | nil =>
      cases hd : m.fallosDb with
      | nil => simp [Mundo.turnoHttp, hh, guardarMensaje, Mundo.turnoDb, hd, List.filter_append]
      | cons b r =>
        cases b <;>
          simp [Mundo.turnoHttp, hh, guardarMensaje, Mundo.turnoDb, hd, List.filter_append]
    | cons c r =>
      cases c
      · cases hd : m.fallosDb with
        | nil => simp [Mundo.turnoHttp, hh, guardarMensaje, Mundo.turnoDb, hd, List.filter_append]
        | cons b r =>
          cases b <;>
            simp [Mundo.turnoHttp, hh, guardarMensaje, Mundo.turnoDb, hd, List.filter_append]
      · simp [Mundo.turnoHttp, hh]

theorem menuPrincipal_observa (n o : String) (m : Mundo) (h : m.almacenFunciona) :
    (manejarOpcionMenuPrincipal n o m).ahora = m.ahora
    ∧ recibidos (manejarOpcionMenuPrincipal n o m) = recibidos m := by
  have hc : ∀ e, (m.conEstado n e).almacenFunciona := fun e => conEstado_funciona m n e h
  unfold manejarOpcionMenuPrincipal
  simp only [actualizar_ok _ _ m h.1]
  split_ifs
  · obtain ⟨e, f, hg⟩ := obtener_funciona n _ (hc estadoTours)
    rw [hg]; exact enviar_observa _ _ _
  · obtain ⟨e, f, hg⟩ := obtener_funciona n _ (hc estadoTraslados)
    rw [hg]; exact enviar_observa _ _ _
  all_goals exact enviar_observa _ _ _

theorem submenu_observa (n o : String) (m : Mundo) (h : m.almacenFunciona) :
    (manejarOpcionTours n o m).ahora = m.ahora
    ∧ recibidos (manejarOpcionTours n o m) = recibidos m := by
  unfold manejarOpcionTours
  simp only [actualizar_ok _ _ m h.1]
  split_ifs
  all_goals exact enviar_observa _ _ _

theorem evento_observa (n b : String) (m : Mundo) (h : m.almacenFunciona) :
    (handleWebhookEvento n b m).2.ahora = m.ahora
    ∧ recibidos (handleWebhookEvento n b m).2
        = recibidos m ++ [⟨n, "RECIBIDO", b, formatoFechaHora m.ahora⟩] := by
  have h1 : (m.conMensaje n "RECIBIDO" b).almacenFunciona := funciona_congr m _ h rfl rfl rfl
  have h2 : recibidos (m.conMensaje n "RECIBIDO" b)
      = recibidos m ++ [⟨n, "RECIBIDO", b, formatoFechaHora m.ahora⟩] := by
    simp [recibidos, List.filter_append]
  obtain ⟨e, f, hg⟩ := obtener_funciona n _ h1
  unfold handleWebhookEvento
  simp only [guardar_ok _ _ _ m h.1, hg]
  rw [← h2]
  split_ifs
  all_goals first
    | exact menuPrincipal_observa _ _ _ h1
    | exact submenu_observa _ _ _ h1
    | exact ⟨rfl, rfl⟩

theorem manejarEventos_observa (es : List (String × String)) (m : Mundo)
    (h : m.almacenFunciona) :
    (manejarEventos es m).ahora = m.ahora
    ∧ recibidos (manejarEventos es m)
        = recibidos m ++ es.map (fun e => ⟨e.1, "RECIBIDO", e.2, formatoFechaHora m.ahora⟩) := by
  induction es generalizing m with
  | nil => simp [manejarEventos]
  | cons x r ih =>
    obtain ⟨f, t⟩ := x
    have he := evento_observa f t m h
    have hi := ih _ (evento_funciona f t m h).2
    simp only [manejarEventos, List.map_cons]
    rw [hi.1, hi.2, he.1, he.2]
    simp

/-- C8: for a POST whose top-level `entry` is a non-empty array, with the
store working, `handleWebhook` answers 200 and its effect is that of handling,
in document order, exactly the events of the payload: the messages reached
through object entries with an array `changes`, object changes with an object
`value` and an array `messages`, that are objects with a string `from` and an
object `text` holding a string `body`. Every other item is skipped. The
inbound log grows by exactly those events, in that order. -/
theorem C8_eventos_del_webhook (r : Request) (m : Mundo) (campos : List (String × JSON))
    (entries : List JSON)
    (hmetodo : r.Method = "POST") (hcuerpo : r.Body = Cuerpo.documento (JSON.object campos))
    (hentry : indice campos "entry" = some (JSON.array entries)) (hno : entries ≠ [])
    (halmacen : m.almacenFunciona) :
    handleWebhook r m = (200, manejarEventos (eventosDeLista eventosDeEntrada entries) m)
    ∧ recibidos (handleWebhook r m).2
        = recibidos m ++ (eventosDeLista eventosDeEntrada entries).map
            (fun e => ⟨e.1, "RECIBIDO", e.2, formatoFechaHora m.ahora⟩) := by
  have hlen : entries.length ≠ 0 := by
    intro h0; exact hno (List.length_eq_zero.mp h0)
  have hres : handleWebhook r m
      = (200, manejarEventos (eventosDeLista eventosDeEntrada entries) m) := by
    simp [handleWebhook, hmetodo, hcuerpo, decodificarMapa, hentry, comoArreglo, hlen,
      entradas_refina entries m halmacen]
  rw [hres]
  exact ⟨rfl, (manejarEventos_observa _ m halmacen).2⟩

/-- C8 at a batch with one message without `body` and one well-formed
message: the well-formed one is the only event, and the answer is 200. -/
theorem C8_eventos_del_webhook_witness :
    eventosDeLista eventosDeEntrada entradasConMalformado = [(remitenteEjemplo, "1")]
    ∧ (handleWebhook peticionConMalformado mundoInicial).1 = 200
    ∧ recibidos (handleWebhook peticionConMalformado mundoInicial).2
      = [⟨remitenteEjemplo, "RECIBIDO", "1", "2024-03-05 12:00:00"⟩] :=
  have h := C8_eventos_del_webhook peticionConMalformado mundoInicial
    [("entry", JSON.array entradasConMalformado)] entradasConMalformado
    rfl rfl (by rfl) (by simp [entradasConMalformado]) (by decide)
  ⟨by decide, by rw [h.1], h.2⟩

/-! ## Free-text rejections, storage errors in a batch, the AGENTE state -/

theorem libre_sin_fila (r : Request) (m : Mundo) (campos : List (String × JSON))
    (numero contenido : String)
    (hmetodo : r.Method = "POST") (hcuerpo : r.Body = Cuerpo.documento (JSON.object campos))
    (hnumero : indice campos "numero" = some (JSON.string numero))
    (hcontenido : indice campos "contenido" = some (JSON.string contenido))
    (hdb : m.fallosDb = []) (hsin : ∀ u ∈ m.usuarios, u.numero ≠ numero) :
    enviarMensajeSinPlantilla r m = (some 500, m) := by
  have hget := obtener_sin_fila numero m hdb (find_none_of_sin_fila numero m.usuarios hsin)
  have hp : parseRFC3339 "" = none := by decide
  simp [enviarMensajeSinPlantilla, hmetodo, hcuerpo, decodificarMapa, hnumero, hcontenido,
    comoCadena, hget, hp]

/-- C11, evaluated at a sender without a row: the free-text endpoint answers
500, not 400 (the empty timestamp string that `obtenerEstadoUsuario` returns
for a missing row fails the RFC3339 parse), and the world is unchanged, so
nothing is sent. -/
theorem C11_sin_registro_responde_500 :
    (∀ u ∈ mundoInicial.usuarios, u.numero ≠ remitenteEjemplo)
    ∧ enviarMensajeSinPlantilla (peticionLibre remitenteEjemplo "hola") mundoInicial
      = (some 500, mundoInicial) := by
  decide

theorem libre_fallo_de_transporte (r : Request) (m : Mundo) (campos : List (String × JSON))
    (numero contenido : String) (u : Usuario) (t : Time) (resto : List Bool)
    (hmetodo : r.Method = "POST") (hcuerpo : r.Body = Cuerpo.documento (JSON.object campos))
    (hnumero : indice campos "numero" = some (JSON.string numero))
    (hcontenido : indice campos "contenido" = some (JSON.string contenido))
    (hcerrar : contenido ≠ "/cerrar")
    (hdb : m.fallosDb = []) (hurl : m.urlValida = true) (hhttp : m.fallosHttp = true :: resto)
    (hfila : m.usuarios.find? (fun x => x.numero == numero) = some u)
    (hfecha : parseRFC3339 (escanearFecha u.fecha_actualizacion) = some t)
    (hreciente : m.ahora.unixNano - t.unixNano ≤ 24 * Hour) :
    enviarMensajeSinPlantilla r m
      = (none, { m with fallosHttp := resto,
                        peticiones := m.peticiones ++ [⟨Payload.text numero contenido, false⟩] }) := by
  have hget := obtener_fila numero m u t hdb hfila hfecha
  have hno : antesDe (t.Add (Hour * 24)) m.ahora = false := by
    simp only [Hour] at hreciente
    simp only [antesDe, Time.Add, Hour, decide_eq_false_iff_not]
    omega
  simp [enviarMensajeSinPlantilla, hmetodo, hcuerpo, decodificarMapa, hnumero, hcontenido,
    comoCadena, hget, hfecha, hno, hcerrar, hurl, Mundo.turnoHttp, hhttp]

/-- C13, evaluated at a request that passes validation and the 24-hour check
while the provider is unreachable: the handler records the failed request and
returns without writing a status, so the caller sees 200, the same status as
when the delivery succeeds. -/
theorem C13_fallo_de_transporte_callado :
    enviarMensajeSinPlantilla (peticionLibre remitenteEjemplo "hola") mundoSinRed
      = (none, { mundoCon "TOURS" "2024-03-05 11:00:00" with
          peticiones := [⟨Payload.text remitenteEjemplo "hola", false⟩] })
    ∧ statusVisto (enviarMensajeSinPlantilla (peticionLibre remitenteEjemplo "hola")
        mundoSinRed).1 = 200
    ∧ statusVisto (enviarMensajeSinPlantilla (peticionLibre remitenteEjemplo "hola")
        (mundoCon "TOURS" "2024-03-05 11:00:00")).1 = 200 := by
  decide

theorem corte_append (a b : List (String × String)) (m : Mundo) :
    manejarEventosCorte (a ++ b) m
      = match manejarEventosCorte a m with
        | (some status, m1) => (some status, m1)
        | (none, m1) => manejarEventosCorte b m1 := by
  induction a generalizing m with
  | nil => rfl
  | cons x r ih =>
    obtain ⟨f, t⟩ := x
    simp only [List.cons_append, manejarEventosCorte]
    cases h : handleWebhookEvento f t m with
    | mk st m1 =>
      cases st with
      | none => exact ih m1
      | some v => rfl

theorem mensaje_corte (x : JSON) (m : Mundo) :
    handleWebhookMensaje x m = manejarEventosCorte (eventoDeMensaje x) m := by
  unfold handleWebhookMensaje eventoDeMensaje
  cases x with
  | object mm =>
    simp only [comoMapa]
    cases hf : indice mm "from" with
    | none => simp [comoCadena, manejarEventosCorte]
    | some jf =>
      cases jf with
      | string f =>
        simp only [comoCadena]
        cases ht : indice mm "text" with
        | none => simp [comoMapa, manejarEventosCorte]
        | some jt =>
          cases jt with
          | object tx =>
            simp only [comoMapa]
            cases hb : indice tx "body" with
            | none => simp [comoCadena, manejarEventosCorte]
            | some jb =>
              cases jb with
              | string b =>
                simp only [comoCadena, manejarEventosCorte]
                cases h : handleWebhookEvento f b m with
                | mk st m1 => cases st <;> rfl
              | _ => simp [comoCadena, manejarEventosCorte]
          | _ => simp [comoMapa, manejarEventosCorte]
      | _ => simp [comoCadena, manejarEventosCorte]
  | _ => simp [comoMapa, manejarEventosCorte]

theorem mensajes_corte (ms : List JSON) (m : Mundo) :
    handleWebhookMensajes ms m = manejarEventosCorte (eventosDeLista eventoDeMensaje ms) m := by
  induction ms generalizing m with
  | nil => rfl
  | cons x r ih =>
    simp only [handleWebhookMensajes, mensaje_corte x m, eventosDeLista, corte_append]
    cases h : manejarEventosCorte (eventoDeMensaje x) m with
    | mk st m1 =>
      cases st with
      | none => exact ih m1
      | some v => rfl

theorem cambio_corte (x : JSON) (m : Mundo) :
    handleWebhookCambio x m = manejarEventosCorte (eventosDeCambio x) m := by
  unfold handleWebhookCambio eventosDeCambio
  cases x with
  | object cm =>
    simp only [comoMapa]
    cases hv : indice cm "value" with
    | none => simp [comoMapa, manejarEventosCorte]
    | some jv =>
      cases jv with
      | object v =>
        simp only [comoMapa]
        cases hm : indice v "messages" with
        | none => simp [comoArreglo, manejarEventosCorte]
        | some jm =>
          cases jm with
          | array ms =>
            simp only [comoArreglo]
            cases ms with
            | nil => simp [eventosDeLista, manejarEventosCorte]
            | cons y r =>
              simp only [List.length_cons, Nat.succ_ne_zero, if_false]
              exact mensajes_corte _ m
          | _ => simp [comoArreglo, manejarEventosCorte]
      | _ => simp [comoMapa, manejarEventosCorte]
  | _ => simp [comoMapa, manejarEventosCorte]

theorem cambios_corte (cs : List JSON) (m : Mundo) :
    handleWebhookCambios cs m = manejarEventosCorte (eventosDeLista eventosDeCambio cs) m := by
  induction cs generalizing m with
  | nil => rfl
  | cons x r ih =>
    simp only [handleWebhookCambios, cambio_corte x m, eventosDeLista, corte_append]
    cases h : manejarEventosCorte (eventosDeCambio x) m with
    | mk st m1 =>
      cases st with
      | none => exact ih m1
      | some v => rfl

theorem entrada_corte (x : JSON) (m : Mundo) :
    handleWebhookEntrada x m = manejarEventosCorte (eventosDeEntrada x) m := by
  unfold handleWebhookEntrada eventosDeEntrada
  cases x with
  | object em =>
    simp only [comoMapa]
    cases hc : indice em "changes" with
    | none => simp [comoArreglo, manejarEventosCorte]
    | some jc =>
      cases jc with
      | array cs =>
        simp only [comoArreglo]
        cases cs with
        | nil => simp [eventosDeLista, manejarEventosCorte]
        | cons y r =>
          simp only [List.length_cons, Nat.succ_ne_zero, if_false]
          exact cambios_corte _ m
      | _ => simp [comoArreglo, manejarEventosCorte]
  | _ => simp [comoMapa, manejarEventosCorte]

theorem entradas_corte (es : List JSON) (m : Mundo) :
    handleWebhookEntradas es m = manejarEventosCorte (eventosDeLista eventosDeEntrada es) m := by
  induction es generalizing m with
  | nil => rfl
  | cons x r ih =>
    simp only [handleWebhookEntradas, entrada_corte x m, eventosDeLista, corte_append]
    cases h : manejarEventosCorte (eventosDeEntrada x) m with
    | mk st m1 =>
      cases st with
      | none => exact ih m1
      | some v => rfl

/-- What `handleWebhook` does with a batch, in any world: the events are
handled in order until one returns a status. -/
theorem handleWebhook_corte (r : Request) (m : Mundo) (campos : List (String × JSON))
    (entries : List JSON)
    (hmetodo : r.Method = "POST") (hcuerpo : r.Body = Cuerpo.documento (JSON.object campos))
    (hentry : indice campos "entry" = some (JSON.array entries)) (hno : entries ≠ []) :
    handleWebhook r m
      = ((manejarEventosCorte (eventosDeLista eventosDeEntrada entries) m).1.getD 200,
         (manejarEventosCorte (eventosDeLista eventosDeEntrada entries) m).2) := by
  have hlen : entries.length ≠ 0 := by
    intro h0; exact hno (List.length_eq_zero.mp h0)
  simp only [handleWebhook, hmetodo, hcuerpo, decodificarMapa, hentry, comoArreglo, hlen,
    if_true, if_false, entradas_corte entries m]
  cases h : manejarEventosCorte (eventosDeLista eventosDeEntrada entries) m with
  | mk st m1 => cases st <;> rfl

/-- C12, counterexample: a batch of three well-formed events in which only the
first database operation fails (the inbound-log write of the first event) is
answered with 500 and nothing at all is handled, while with a working store
all three events are logged. -/
theorem C12_error_de_almacen_contraejemplo :
    eventosDeLista eventosDeEntrada entradasTresEventos
      = [("5491100000001", "hola"), ("5491100000002", "1"), ("5491100000003", "2")]
    ∧ handleWebhook peticionTresEventos (mundoConFallos [true]) = (500, mundoInicial)
    ∧ recibidos (handleWebhook peticionTresEventos mundoInicial).2
      = [⟨"5491100000001", "RECIBIDO", "hola", "2024-03-05 12:00:00"⟩,
         ⟨"5491100000002", "RECIBIDO", "1", "2024-03-05 12:00:00"⟩,
         ⟨"5491100000003", "RECIBIDO", "2", "2024-03-05 12:00:00"⟩] := by
  decide

theorem evento_error_de_almacen (n b : String) (m : Mundo)
    (herr : (guardarMensaje n "RECIBIDO" b m).1 ≠ none
      ∨ (obtenerEstadoUsuario n (guardarMensaje n "RECIBIDO" b m).2).1.2.2 ≠ none) :
    (handleWebhookEvento n b m).1 = some 500
    ∧ (handleWebhookEvento n b m).2.peticiones = m.peticiones
    ∧ (handleWebhookEvento n b m).2.usuarios = m.usuarios := by
  unfold handleWebhookEvento
  cases hg : guardarMensaje n "RECIBIDO" b m with
  | mk e m1 =>
    have hm1 : m1.peticiones = m.peticiones ∧ m1.usuarios = m.usuarios := by
      have : m1 = (guardarMensaje n "RECIBIDO" b m).2 := by rw [hg]
      rw [this]
      unfold guardarMensaje Mundo.turnoDb
      cases m.fallosDb with
      | nil => exact ⟨rfl, rfl⟩
      | cons x r => cases x <;> exact ⟨rfl, rfl⟩
    cases e with
    | some v => exact ⟨rfl, hm1.1, hm1.2⟩
    | none =>
      simp only [hg] at herr
      simp only []
      have herr2 : (obtenerEstadoUsuario n m1).1.2.2 ≠ none := by
        rcases herr with h | h
        · exact absurd rfl h
        · exact h
      cases ho : obtenerEstadoUsuario n m1 with
      | mk res m2 =>
        obtain ⟨e1, f1, err⟩ := res
        have hm2 : m2.peticiones = m1.peticiones ∧ m2.usuarios = m1.usuarios := by
          have : m2 = (obtenerEstadoUsuario n m1).2 := by rw [ho]
          rw [this]
          unfold obtenerEstadoUsuario Mundo.turnoDb
          cases m1.fallosDb with
          | nil =>
            simp only []
            split
            · exact ⟨rfl, rfl⟩
            · split <;> exact ⟨rfl, rfl⟩
          | cons x r =>
            cases x
            · simp only []
              split
              · exact ⟨rfl, rfl⟩
              · split <;> exact ⟨rfl, rfl⟩
            · exact ⟨rfl, rfl⟩
        cases err with
        | none => rw [ho] at herr2; exact absurd rfl herr2
        | some v => exact ⟨rfl, hm2.1.trans hm1.1, hm2.2.trans hm1.2⟩

/-- C12, amended: when the store fails while an event of the batch is handled
(its inbound-log write or its state read returns an error), `handleWebhook`
answers 500 and stops there: the events before it stay handled, the failing
event gets no transition and no reply, and no later event of the batch is
handled. -/
theorem C12_error_de_almacen_corta_el_lote (r : Request) (m : Mundo)
    (campos : List (String × JSON)) (entries : List JSON)
    (antes despues : List (String × String)) (remitente body : String)
    (hmetodo : r.Method = "POST") (hcuerpo : r.Body = Cuerpo.documento (JSON.object campos))
    (hentry : indice campos "entry" = some (JSON.array entries)) (hno : entries ≠ [])
    (heventos : eventosDeLista eventosDeEntrada entries = antes ++ (remitente, body) :: despues)
    (hantes : (manejarEventosCorte antes m).1 = none)
    (herror : (guardarMensaje remitente "RECIBIDO" body (manejarEventosCorte antes m).2).1 ≠ none
      ∨ (obtenerEstadoUsuario remitente
          (guardarMensaje remitente "RECIBIDO" body (manejarEventosCorte antes m).2).2).1.2.2
        ≠ none) :
    handleWebhook r m
        = (500, (handleWebhookEvento remitente body (manejarEventosCorte antes m).2).2)
    ∧ (handleWebhook r m).2.peticiones = (manejarEventosCorte antes m).2.peticiones
    ∧ (handleWebhook r m).2.usuarios = (manejarEventosCorte antes m).2.usuarios := by
  have hev := evento_error_de_almacen remitente body (manejarEventosCorte antes m).2 herror
  have hres : handleWebhook r m
      = (500, (handleWebhookEvento remitente body (manejarEventosCorte antes m).2).2) := by
    rw [handleWebhook_corte r m campos entries hmetodo hcuerpo hentry hno, heventos, corte_append]
    cases ha : manejarEventosCorte antes m with
    | mk st m1 =>
      rw [ha] at hantes hev
      simp only [] at hantes hev
      subst hantes
      simp only [manejarEventosCorte]
      cases he : handleWebhookEvento remitente body m1 with
      | mk st2 m2 =>
        rw [he] at hev
        simp only [] at hev
        rw [hev.1]
        rfl
  rw [hres]
  exact ⟨rfl, hev.2.1, hev.2.2⟩

/-- C12, amended, at the batch of three events with the fifth database
operation failing (the inbound-log write of the second event): only the first
event is handled. -/
theorem C12_error_de_almacen_corta_el_lote_witness :
    handleWebhook peticionTresEventos (mundoConFallos [false, false, false, false, true])
        = (500, (manejarEventosCorte [("5491100000001", "hola")] mundoInicial).2)
    ∧ recibidos (handleWebhook peticionTresEventos
          (mundoConFallos [false, false, false, false, true])).2
        = [⟨"5491100000001", "RECIBIDO", "hola", "2024-03-05 12:00:00"⟩] :=
  have h := C12_error_de_almacen_corta_el_lote peticionTresEventos
    (mundoConFallos [false, false, false, false, true])
    [("entry", JSON.array entradasTresEventos)] entradasTresEventos
    [("5491100000001", "hola")] [("5491100000003", "2")] "5491100000002" "1"
    rfl rfl (by rfl) (by simp [entradasTresEventos]) (by decide) (by decide) (by decide)
  ⟨h.1.trans (by decide), by rw [h.1]; decide⟩

theorem handleWebhook_un_mensaje (remitente body : String) (m : Mundo) :
    handleWebhook ⟨"POST", Cuerpo.documento (cargaWebhook remitente body)⟩ m
      = ((handleWebhookEvento remitente body m).1.getD 200,
         (handleWebhookEvento remitente body m).2) := by
  simp only [handleWebhook, cargaWebhook, decodificarMapa, indice, comoArreglo, comoMapa,
    comoCadena, handleWebhookEntradas, handleWebhookEntrada, handleWebhookCambios,
    handleWebhookCambio, handleWebhookMensajes, handleWebhookMensaje, List.length_cons,
    List.length_nil, if_true, if_false]
  simp only [show ("text" = "from") = False from by decide, show ("from" = "text") = False
    from by decide, if_false, if_true]
  cases h : handleWebhookEvento remitente body m with
  | mk st m1 => cases st <;> simp

theorem guardar_usuarios (n t x : String) (m : Mundo) :
    (guardarMensaje n t x m).2.usuarios = m.usuarios := by
  unfold guardarMensaje Mundo.turnoDb
  cases m.fallosDb with
  | nil => rfl
  | cons b r => cases b <;> rfl

theorem obtener_usuarios (n : String) (m : Mundo) :
    (obtenerEstadoUsuario n m).2.usuarios = m.usuarios := by
  unfold obtenerEstadoUsuario Mundo.turnoDb
  cases m.fallosDb with
  | nil =>
    simp only []
    split
    · rfl
    · split <;> rfl
  | cons x r =>
    cases x
    · simp only []
      split
      · rfl
      · split <;> rfl
    · rfl

theorem enviar_usuarios (n c : String) (m : Mundo) :
    (enviarMensaje n c m).usuarios = m.usuarios := by
  unfold enviarMensaje
  cases hurl : m.urlValida with
  | false => simp
  | true =>
    cases hh : m.fallosHttp with
    | nil =>
      simp only [Mundo.turnoHttp, hh, Bool.true_eq_false, if_false]
      exact guardar_usuarios _ _ _ _
    | cons b r =>
      cases b
      · simp only [Mundo.turnoHttp, hh, Bool.true_eq_false, if_false]
        exact guardar_usuarios _ _ _ _
      · simp [Mundo.turnoHttp, hh]

theorem actualizar_usuarios (n e : String) (m : Mundo) :
    (actualizarEstadoUsuario n e m).2.usuarios = m.usuarios
    ∨ (actualizarEstadoUsuario n e m).2.usuarios
        = reemplazarUsuario m.usuarios ⟨n, e, formatoFechaHora m.ahora⟩ := by
  unfold actualizarEstadoUsuario Mundo.turnoDb
  cases m.fallosDb with
  | nil => exact Or.inr rfl
  | cons b r =>
    cases b
    · exact Or.inr rfl
    · exact Or.inl rfl

theorem sinNuevoAgente_de_igual (m m2 : Mundo) (h : m2.usuarios = m.usuarios) :
    sinNuevoAgente m m2 := by
  intro u hu _
  rw [h] at hu; exact hu

theorem sinNuevoAgente_trans (m m2 m3 : Mundo) (h1 : sinNuevoAgente m m2)
    (h2 : sinNuevoAgente m2 m3) : sinNuevoAgente m m3 :=
  fun u hu ha => h1 u (h2 u hu ha) ha

theorem actualizar_sinNuevoAgente (n e : String) (m : Mundo) (he : e ≠ "AGENTE") :
    sinNuevoAgente m (actualizarEstadoUsuario n e m).2 := by
  rcases actualizar_usuarios n e m with h | h
  · exact sinNuevoAgente_de_igual _ _ h
  · intro u hu ha
    rw [h] at hu
    simp only [reemplazarUsuario, List.mem_append, List.mem_filter, List.mem_singleton] at hu
    rcases hu with ⟨hu, _⟩ | hu
    · exact hu
    · rw [hu] at ha; exact absurd ha he

theorem actualizar_enviar_sinNuevoAgente (n e c : String) (m : Mundo) (he : e ≠ "AGENTE") :
    sinNuevoAgente m (enviarMensaje n c (actualizarEstadoUsuario n e m).2) :=
  sinNuevoAgente_trans _ _ _ (actualizar_sinNuevoAgente n e m he)
    (sinNuevoAgente_de_igual _ _ (enviar_usuarios _ _ _))

theorem actualizar_obtener_enviar_usuarios (n e c : String) (m : Mundo) :
    (match obtenerEstadoUsuario n (actualizarEstadoUsuario n e m).2 with
      | ((_, _, some _), m2) => m2
      | ((_, _, none), m2) => enviarMensaje n c m2).usuarios
      = (actualizarEstadoUsuario n e m).2.usuarios := by
  have ho := obtener_usuarios n (actualizarEstadoUsuario n e m).2
  cases h : obtenerEstadoUsuario n (actualizarEstadoUsuario n e m).2 with
  | mk res m2 =>
    obtain ⟨e1, f1, err⟩ := res
    rw [h] at ho
    cases err with
    | none => simp only []; rw [enviar_usuarios]; exact ho
    | some v => exact ho

theorem menuPrincipal_sinNuevoAgente (n o : String) (m : Mundo) :
    sinNuevoAgente m (manejarOpcionMenuPrincipal n o m) := by
  unfold manejarOpcionMenuPrincipal
  split_ifs
  · exact sinNuevoAgente_trans _ _ _ (actualizar_sinNuevoAgente n estadoTours m (by decide))
      (sinNuevoAgente_de_igual _ _ (actualizar_obtener_enviar_usuarios n estadoTours _ m))
  · exact sinNuevoAgente_trans _ _ _
      (actualizar_sinNuevoAgente n estadoTraslados m (by decide))
      (sinNuevoAgente_de_igual _ _ (actualizar_obtener_enviar_usuarios n estadoTraslados _ m))
  all_goals first
    | exact sinNuevoAgente_de_igual _ _ (enviar_usuarios _ _ _)
    | exact actualizar_enviar_sinNuevoAgente n estadoPrincipal _ m (by decide)

theorem submenu_sinNuevoAgente (n o : String) (m : Mundo) :
    sinNuevoAgente m (manejarOpcionTours n o m) := by
  unfold manejarOpcionTours
  split_ifs
  all_goals first
    | exact sinNuevoAgente_de_igual _ _ (enviar_usuarios _ _ _)
    | exact actualizar_enviar_sinNuevoAgente n estadoPrincipal _ m (by decide)

theorem evento_sinNuevoAgente (n b : String) (m : Mundo) :
    sinNuevoAgente m (handleWebhookEvento n b m).2 := by
  have hg := guardar_usuarios n "RECIBIDO" b m
  unfold handleWebhookEvento
  cases h1 : guardarMensaje n "RECIBIDO" b m with
  | mk e m1 =>
    rw [h1] at hg
    simp only [] at hg
    cases e with
    | some v => exact sinNuevoAgente_de_igual _ _ hg
    | none =>
      simp only []
      have ho := obtener_usuarios n m1
      cases h2 : obtenerEstadoUsuario n m1 with
      | mk res m2 =>
        obtain ⟨e1, f1, err⟩ := res
        rw [h2] at ho
        simp only [] at ho
        have h12 : sinNuevoAgente m m2 := sinNuevoAgente_de_igual _ _ (ho.trans hg)
        cases err with
        | some v => exact h12
        | none =>
          simp only []
          split_ifs
          all_goals first
            | exact sinNuevoAgente_trans _ _ _ h12 (menuPrincipal_sinNuevoAgente _ _ _)
            | exact sinNuevoAgente_trans _ _ _ h12 (submenu_sinNuevoAgente _ _ _)
            | exact h12

theorem corte_sinNuevoAgente (es : List (String × String)) (m : Mundo) :
    sinNuevoAgente m (manejarEventosCorte es m).2 := by
  induction es generalizing m with
  | nil => exact sinNuevoAgente_de_igual _ _ rfl
  | cons x r ih =>
    obtain ⟨f, t⟩ := x
    have he := evento_sinNuevoAgente f t m
    simp only [manejarEventosCorte]
    cases h : handleWebhookEvento f t m with
    | mk st m1 =>
      rw [h] at he
      cases st with
      | some v => exact he
      | none => exact sinNuevoAgente_trans _ _ _ he (ih m1)

theorem handleWebhook_sinNuevoAgente (r : Request) (m : Mundo) :
    sinNuevoAgente m (handleWebhook r m).2 := by
  unfold handleWebhook
  split_ifs
  · split
    · exact sinNuevoAgente_de_igual _ _ rfl
    · exact sinNuevoAgente_de_igual _ _ rfl
    · split
      · exact sinNuevoAgente_de_igual _ _ rfl
      · split
        · exact sinNuevoAgente_de_igual _ _ rfl
        · split_ifs
          · exact sinNuevoAgente_de_igual _ _ rfl
          · rename_i entries _ _
            have hc := corte_sinNuevoAgente (eventosDeLista eventosDeEntrada entries) m
            rw [← entradas_corte] at hc
            split
            · rename_i h; rw [h] at hc; exact hc
            · rename_i h; rw [h] at hc; exact hc
  · exact sinNuevoAgente_de_igual _ _ rfl

theorem turnoDb_campos (m : Mundo) :
    m.turnoDb.2.usuarios = m.usuarios ∧ m.turnoDb.2.mensajes = m.mensajes
    ∧ m.turnoDb.2.peticiones = m.peticiones ∧ m.turnoDb.2.ahora = m.ahora
    ∧ m.turnoDb.2.urlValida = m.urlValida ∧ m.turnoDb.2.fallosHttp = m.fallosHttp := by
  unfold Mundo.turnoDb
  cases m.fallosDb with
  | nil => exact ⟨rfl, rfl, rfl, rfl, rfl, rfl⟩
  | cons b r => exact ⟨rfl, rfl, rfl, rfl, rfl, rfl⟩

theorem obtener_mundo (n : String) (m : Mundo) :
    (obtenerEstadoUsuario n m).2 = m.turnoDb.2 := by
  unfold obtenerEstadoUsuario
  cases h : m.turnoDb with
  | mk b m1 =>
    cases b
    · simp only []
      split
      · rfl
      · split <;> rfl
    · rfl

theorem soloTextoLibre_de_igual (m m2 : Mundo) (h : m2.usuarios = m.usuarios) :
    soloTextoLibre m m2 := by
  intro u hu _
  rw [h] at hu; exact Or.inl hu

theorem soloTextoLibre_de_sin (m m2 : Mundo) (h : sinNuevoAgente m m2) :
    soloTextoLibre m m2 :=
  fun u hu ha => Or.inl (h u hu ha)

theorem turnoHttp_campos (m : Mundo) :
    m.turnoHttp.2.usuarios = m.usuarios ∧ m.turnoHttp.2.mensajes = m.mensajes
    ∧ m.turnoHttp.2.peticiones = m.peticiones ∧ m.turnoHttp.2.ahora = m.ahora := by
  unfold Mundo.turnoHttp
  cases m.fallosHttp with
  | nil => exact ⟨rfl, rfl, rfl, rfl⟩
  | cons b r => exact ⟨rfl, rfl, rfl, rfl⟩

theorem guardar_exito (n t x : String) (w : Mundo) (h : (guardarMensaje n t x w).1 = none) :
    (guardarMensaje n t x w).2.mensajes = w.mensajes ++ [⟨n, t, x, formatoFechaHora w.ahora⟩]
    ∧ (guardarMensaje n t x w).2.usuarios = w.usuarios
    ∧ (guardarMensaje n t x w).2.peticiones = w.peticiones
    ∧ (guardarMensaje n t x w).2.ahora = w.ahora := by
  unfold guardarMensaje Mundo.turnoDb at h ⊢
  cases hf : w.fallosDb with
  | nil => exact ⟨rfl, rfl, rfl, rfl⟩
  | cons b r =>
    rw [hf] at h
    cases b
    · exact ⟨rfl, rfl, rfl, rfl⟩
    · exact absurd h (by simp)

theorem actualizar_campos (n e : String) (w : Mundo) :
    (actualizarEstadoUsuario n e w).2.mensajes = w.mensajes
    ∧ (actualizarEstadoUsuario n e w).2.peticiones = w.peticiones
    ∧ (actualizarEstadoUsuario n e w).2.ahora = w.ahora := by
  unfold actualizarEstadoUsuario Mundo.turnoDb
  cases w.fallosDb with
  | nil => exact ⟨rfl, rfl, rfl⟩
  | cons b r => cases b <;> exact ⟨rfl, rfl, rfl⟩

/-- The part of the free-text endpoint after a response from the provider:
log the text, then store AGENTE. -/
theorem texto_entregado_soloTextoLibre (m w : Mundo) (numero contenido : String)
    (hc : contenido ≠ "/cerrar") (hu : w.usuarios = m.usuarios) (hm : w.mensajes = m.mensajes)
    (hp : w.peticiones = m.peticiones ++ [⟨Payload.text numero contenido, true⟩])
    (ha : w.ahora = m.ahora) :
    soloTextoLibre m
      (match guardarMensaje numero "ENVIADO" contenido w with
        | (some _, m3) => ((none : Option Nat), m3)
        | (none, m3) => (none, (actualizarEstadoUsuario numero estadoAgente m3).2)).2 := by
  cases hg : guardarMensaje numero "ENVIADO" contenido w with
  | mk e m3 =>
    cases e with
    | some v =>
      have := guardar_usuarios numero "ENVIADO" contenido w
      rw [hg] at this
      exact soloTextoLibre_de_igual _ _ (this.trans hu)
    | none =>
      have hex := guardar_exito numero "ENVIADO" contenido w (by rw [hg])
      rw [hg] at hex
      simp only [] at hex ⊢
      obtain ⟨h1, h2, h3, h4⟩ := hex
      obtain ⟨c1, c2, c3⟩ := actualizar_campos numero estadoAgente m3
      intro u hmem hag
      rcases actualizar_usuarios numero estadoAgente m3 with h | h
      · rw [h, h2, hu] at hmem; exact Or.inl hmem
      · rw [h] at hmem
        simp only [reemplazarUsuario, List.mem_append, List.mem_filter,
          List.mem_singleton] at hmem
        rcases hmem with ⟨hmem, _⟩ | hmem
        · rw [h2, hu] at hmem; exact Or.inl hmem
        · refine Or.inr ⟨numero, contenido, hc, ?_, ?_, ?_⟩
          · rw [hmem, h4, ha]; rfl
          · rw [c1, h1, hm, ha]
          · rw [c2, h3, hp]

theorem libre_soloTextoLibre (r : Request) (m : Mundo) :
    soloTextoLibre m (enviarMensajeSinPlantilla r m).2 := by
  unfold enviarMensajeSinPlantilla
  split
  · split
    · exact soloTextoLibre_de_igual _ _ rfl
    · exact soloTextoLibre_de_igual _ _ rfl
    · split
      · exact soloTextoLibre_de_igual _ _ rfl
      · split
        · exact soloTextoLibre_de_igual _ _ rfl
        · rename_i numero _
          split
          · exact soloTextoLibre_de_igual _ _ rfl
          · rename_i contenido _
            have hcampos := turnoDb_campos m
            have hmundo := obtener_mundo numero m
            split
            · rename_i heq
              rw [heq] at hmundo
              simp only [] at hmundo
              rw [hmundo]
              exact soloTextoLibre_de_igual _ _ hcampos.1
            · rename_i m2 heq
              rw [heq] at hmundo
              simp only [] at hmundo
              subst hmundo
              obtain ⟨hu, hme, hpe, hah, _, _⟩ := hcampos
              split
              · exact soloTextoLibre_de_igual _ _ hu
              · split
                · exact soloTextoLibre_de_igual _ _ hu
                · split
                  · have hsin : sinNuevoAgente m
                        (actualizarEstadoUsuario numero estadoPrincipal m.turnoDb.2).2 :=
                      sinNuevoAgente_trans _ _ _ (sinNuevoAgente_de_igual _ _ hu)
                        (actualizar_sinNuevoAgente numero estadoPrincipal _ (by decide))
                    split
                    · rename_i heq2
                      rw [heq2] at hsin
                      exact soloTextoLibre_de_sin _ _ hsin
                    · rename_i heq2
                      rw [heq2] at hsin
                      exact soloTextoLibre_de_sin _ _ (sinNuevoAgente_trans _ _ _ hsin
                        (sinNuevoAgente_de_igual _ _ (enviar_usuarios _ _ _)))
                  · rename_i hcerrar
                    simp only []
                    split
                    · exact soloTextoLibre_de_igual _ _ hu
                    · obtain ⟨t1, t2, t3, t4⟩ := turnoHttp_campos m.turnoDb.2
                      split
                      · rename_i m3 heq3
                        rw [heq3] at t1
                        exact soloTextoLibre_de_igual _ _ (t1.trans hu)
                      · rename_i m3 heq3
                        rw [heq3] at t1 t2 t3 t4
                        simp only [] at t1 t2 t3 t4
                        exact texto_entregado_soloTextoLibre m _ numero contenido hcerrar
                          (t1.trans hu) (t2.trans hme) (by simp only []; rw [t3, hpe])
                          (t4.trans hah)
  · exact soloTextoLibre_de_igual _ _ rfl

/-- C16: a POST to the free-text endpoint that passes validation and the
24-hour check, with contenido other than "/cerrar" and delivery and store
working, issues one text request, appends exactly one ENVIADO entry whose body
is the contenido, and writes the sender's row as AGENTE at the current clock
reading, whatever the stored state was. No other operation stores AGENTE:
`handleWebhook` never adds an AGENTE row, and every AGENTE row the free-text
endpoint adds is the one of a delivered and logged text. -/
theorem C16_texto_libre_pasa_a_agente (r : Request) (m : Mundo)
    (campos : List (String × JSON)) (numero contenido : String) (u : Usuario) (t : Time)
    (hmetodo : r.Method = "POST") (hcuerpo : r.Body = Cuerpo.documento (JSON.object campos))
    (hnumero : indice campos "numero" = some (JSON.string numero))
    (hcontenido : indice campos "contenido" = some (JSON.string contenido))
    (hcerrar : contenido ≠ "/cerrar")
    (hdb : m.fallosDb = []) (hhttp : m.fallosHttp = []) (hurl : m.urlValida = true)
    (hfila : m.usuarios.find? (fun x => x.numero == numero) = some u)
    (hfecha : parseRFC3339 (escanearFecha u.fecha_actualizacion) = some t)
    (hreciente : m.ahora.unixNano - t.unixNano ≤ 24 * Hour) :
    (enviarMensajeSinPlantilla r m).2.peticiones
        = m.peticiones ++ [⟨Payload.text numero contenido, true⟩]
    ∧ (enviarMensajeSinPlantilla r m).2.mensajes
        = m.mensajes ++ [⟨numero, "ENVIADO", contenido, formatoFechaHora m.ahora⟩]
    ∧ (enviarMensajeSinPlantilla r m).2.usuarios
        = reemplazarUsuario m.usuarios ⟨numero, "AGENTE", formatoFechaHora m.ahora⟩
    ∧ (∀ (r2 : Request) (m2 : Mundo), sinNuevoAgente m2 (handleWebhook r2 m2).2)
    ∧ (∀ (r2 : Request) (m2 : Mundo), soloTextoLibre m2 (enviarMensajeSinPlantilla r2 m2).2) := by
  have hget := obtener_fila numero m u t hdb hfila hfecha
  have hno : antesDe (t.Add (Hour * 24)) m.ahora = false := by
    simp only [Hour] at hreciente
    simp only [antesDe, Time.Add, Hour, decide_eq_false_iff_not]
    omega
  have hres : enviarMensajeSinPlantilla r m
      = (none, (((m.conPeticion (Payload.text numero contenido) true).conMensaje numero
          "ENVIADO" contenido).conEstado numero "AGENTE")) := by
    simp [enviarMensajeSinPlantilla, hmetodo, hcuerpo, decodificarMapa, hnumero, hcontenido,
      comoCadena, hget, hfecha, hno, hcerrar, hurl, Mundo.turnoHttp, hhttp, guardarMensaje,
      actualizarEstadoUsuario, Mundo.turnoDb, hdb, estadoAgente, Mundo.conPeticion,
      Mundo.conMensaje, Mundo.conEstado]
  rw [hres]
  exact ⟨rfl, rfl, rfl, handleWebhook_sinNuevoAgente, libre_soloTextoLibre⟩

/-- C16 at the example sender, in state TOURS since one hour, and the text
"hola". -/
theorem C16_texto_libre_pasa_a_agente_witness :
    (enviarMensajeSinPlantilla (peticionLibre remitenteEjemplo "hola")
        (mundoCon "TOURS" "2024-03-05 11:00:00")).2.peticiones
      = [⟨Payload.text remitenteEjemplo "hola", true⟩]
    ∧ (enviarMensajeSinPlantilla (peticionLibre remitenteEjemplo "hola")
        (mundoCon "TOURS" "2024-03-05 11:00:00")).2.mensajes
      = [⟨remitenteEjemplo, "ENVIADO", "hola", "2024-03-05 12:00:00"⟩]
    ∧ (enviarMensajeSinPlantilla (peticionLibre remitenteEjemplo "hola")
        (mundoCon "TOURS" "2024-03-05 11:00:00")).2.usuarios
      = [⟨remitenteEjemplo, "AGENTE", "2024-03-05 12:00:00"⟩] :=
  have h := C16_texto_libre_pasa_a_agente (peticionLibre remitenteEjemplo "hola")
    (mundoCon "TOURS" "2024-03-05 11:00:00")
    [("numero", JSON.string remitenteEjemplo), ("contenido", JSON.string "hola")]
    remitenteEjemplo "hola" ⟨remitenteEjemplo, "TOURS", "2024-03-05 11:00:00"⟩
    ⟨2024, 3, 5, 11, 0, 0, 0, 0⟩ rfl rfl (by rfl) (by rfl) (by decide) rfl rfl rfl
    (by decide) (by decide) (by decide)
  ⟨h.1, h.2.1, h.2.2.1⟩

theorem evento_sin_fila (numero body : String) (m : Mundo) (hdb : m.fallosDb = [])
    (hsin : ∀ u ∈ m.usuarios, u.numero ≠ numero) :
    handleWebhookEvento numero body m
      = (none, manejarOpcionMenuPrincipal numero body (m.conMensaje numero "RECIBIDO" body)) := by
  have hget2 := obtener_sin_fila numero (m.conMensaje numero "RECIBIDO" body) hdb
    (find_none_of_sin_fila numero m.usuarios hsin)
  simp [handleWebhookEvento, guardar_ok _ _ _ m hdb, hget2]

theorem menuPrincipal_usuarios (n o : String) (m : Mundo) (hdb : m.fallosDb = []) :
    (manejarOpcionMenuPrincipal n o m).usuarios
      = if o = "3" ∨ o = "4" ∨ o = "5" ∨ o = "6" ∨ o = "agente" then m.usuarios
        else reemplazarUsuario m.usuarios
          ⟨n, (tablaMenuPrincipal o).1, formatoFechaHora m.ahora⟩ := by
  have hact : ∀ e, (actualizarEstadoUsuario n e m).2.usuarios
      = reemplazarUsuario m.usuarios ⟨n, e, formatoFechaHora m.ahora⟩ := by
    intro e; rw [actualizar_ok n e m hdb]; rfl
  by_cases h1 : o = "1"
  · subst h1
    simp only [manejarOpcionMenuPrincipal, if_true]
    rw [actualizar_obtener_enviar_usuarios n estadoTours "tours_es" m, hact]
    simp [tablaMenuPrincipal, estadoTours]
  by_cases h2 : o = "2"
  · subst h2
    simp only [manejarOpcionMenuPrincipal, if_true]
    rw [if_neg (by decide), actualizar_obtener_enviar_usuarios n estadoTraslados
      "transport_es" m, hact]
    simp [tablaMenuPrincipal, estadoTraslados]
  by_cases h3 : o = "3" ∨ o = "4" ∨ o = "5" ∨ o = "6" ∨ o = "agente"
  · rw [if_pos h3]
    unfold manejarOpcionMenuPrincipal
    rcases h3 with h | h | h | h | h <;> subst h <;> simp [enviar_usuarios]
  · rw [if_neg h3]
    simp only [not_or] at h3
    obtain ⟨h3, h4, h5, h6, h7⟩ := h3
    unfold manejarOpcionMenuPrincipal
    simp only [h1, h2, h3, h4, h5, h6, h7, if_false, enviar_usuarios, hact]
    simp [tablaMenuPrincipal, h1, h2, h3, h4, h5, h6, h7, estadoPrincipal]

/-- C14, counterexample: a sender without a row sends "3" (and another
"agente"); the webhook handler answers 200, sends the reply and logs both
messages, and the table `usuarios` still has no row for the sender. -/
theorem C14_sin_registro_tras_opcion_contraejemplo :
    (∀ u ∈ mundoInicial.usuarios, u.numero ≠ remitenteEjemplo)
    ∧ handleWebhook ⟨"POST", Cuerpo.documento (cargaWebhook remitenteEjemplo "3")⟩ mundoInicial
      = (200, { mundoInicial with
          mensajes := [⟨remitenteEjemplo, "RECIBIDO", "3", "2024-03-05 12:00:00"⟩,
            ⟨remitenteEjemplo, "ENVIADO", "", "2024-03-05 12:00:00"⟩],
          peticiones := [⟨Payload.template remitenteEjemplo "404_es" "es_AR", true⟩] })
    ∧ (handleWebhook ⟨"POST", Cuerpo.documento (cargaWebhook remitenteEjemplo "agente")⟩
        mundoInicial).2.usuarios = [] := by
  decide

/-- C14, amended: for a sender without a row and the store working, the
webhook handler answers 200; after a body other than "3", "4", "5", "6" and
"agente" the table holds a row for the sender, with the next state of the
transition table; after one of those five bodies it still holds no row for
the sender. -/
theorem C14_registro_tras_primer_mensaje (numero body : String) (m : Mundo)
    (hdb : m.fallosDb = []) (hsin : ∀ u ∈ m.usuarios, u.numero ≠ numero) :
    (handleWebhook ⟨"POST", Cuerpo.documento (cargaWebhook numero body)⟩ m).1 = 200
    ∧ (body = "3" ∨ body = "4" ∨ body = "5" ∨ body = "6" ∨ body = "agente" →
        ∀ u ∈ (handleWebhook ⟨"POST", Cuerpo.documento (cargaWebhook numero body)⟩ m).2.usuarios,
          u.numero ≠ numero)
    ∧ (¬ (body = "3" ∨ body = "4" ∨ body = "5" ∨ body = "6" ∨ body = "agente") →
        (⟨numero, (tablaMenuPrincipal body).1, formatoFechaHora m.ahora⟩ : Usuario)
          ∈ (handleWebhook ⟨"POST", Cuerpo.documento (cargaWebhook numero body)⟩ m).2.usuarios) := by
  rw [handleWebhook_un_mensaje, evento_sin_fila numero body m hdb hsin]
  have hus := menuPrincipal_usuarios numero body (m.conMensaje numero "RECIBIDO" body) hdb
  refine ⟨rfl, ?_, ?_⟩
  · intro h u hu
    simp only [] at hu
    rw [hus, if_pos h] at hu
    exact hsin u hu
  · intro h
    simp only []
    rw [hus, if_neg h]
    simp [reemplazarUsuario]

/-- C14, amended, at the example sender in the world with empty tables: body
"1" leaves a TOURS row, body "5" leaves no row. -/
theorem C14_registro_tras_primer_mensaje_witness :
    (⟨remitenteEjemplo, "TOURS", "2024-03-05 12:00:00"⟩ : Usuario)
        ∈ (handleWebhook ⟨"POST", Cuerpo.documento (cargaWebhook remitenteEjemplo "1")⟩
            mundoInicial).2.usuarios
    ∧ ∀ u ∈ (handleWebhook ⟨"POST", Cuerpo.documento (cargaWebhook remitenteEjemplo "5")⟩
        mundoInicial).2.usuarios, u.numero ≠ remitenteEjemplo :=
  ⟨(C14_registro_tras_primer_mensaje remitenteEjemplo "1" mundoInicial rfl
      (by decide)).2.2 (by decide),
   (C14_registro_tras_primer_mensaje remitenteEjemplo "5" mundoInicial rfl
      (by decide)).2.1 (by decide)⟩

/-! ## Dispatch by effective state, rows written in other zones, the catalog search -/

/-- The dispatch of `handleWebhook` (main.go:399-430) with the store working:
the message is logged and the handler of the sender's effective state runs on
the logged world; a state without a case only logs. -/
theorem evento_por_estado (n b e : String) (m : Mundo) (hdb : m.fallosDb = [])
    (hest : estadoEfectivo n m = some e) :
    handleWebhookEvento n b m
      = (none,
          if e = estadoPrincipal then
            manejarOpcionMenuPrincipal n b (m.conMensaje n "RECIBIDO" b)
          else if e = estadoTours then manejarOpcionTours n b (m.conMensaje n "RECIBIDO" b)
          else if e = estadoTraslados then
            manejarOpcionTraslados n b (m.conMensaje n "RECIBIDO" b)
          else m.conMensaje n "RECIBIDO" b) := by
  have hest2 : estadoEfectivo n (m.conMensaje n "RECIBIDO" b) = some e := by
    rw [← hest]; exact estadoEfectivo_congr n m _ rfl rfl rfl
  have hmundo := obtener_mundo n (m.conMensaje n "RECIBIDO" b)
  have hturno : (m.conMensaje n "RECIBIDO" b).turnoDb.2 = m.conMensaje n "RECIBIDO" b := by
    simp [Mundo.turnoDb, hdb]
  rw [hturno] at hmundo
  unfold estadoEfectivo at hest2
  unfold handleWebhookEvento
  rw [guardar_ok _ _ _ m hdb]
  simp only []
  cases ho : obtenerEstadoUsuario n (m.conMensaje n "RECIBIDO" b) with
  | mk res m2 =>
    obtain ⟨e1, f1, err⟩ := res
    rw [ho] at hest2 hmundo
    simp only [] at hmundo
    subst hmundo
    cases err with
    | some v => simp at hest2
    | none =>
      simp only [Option.some.injEq] at hest2
      simp only [hest2]
      split_ifs <;> rfl

/-- C1: for a sender whose effective state is MENU_PRINCIPAL and every body,
with the store and the delivery working, `handleWebhook` answers 200 and
handles the message by `manejarOpcionMenuPrincipal` on the logged world: it
issues exactly one provider request, the template of the transition table's
row for the body, logs the inbound message and the template's catalog text,
and leaves the sender's effective state as that row says: "1" gives TOURS and
tours_es, "2" gives TRASLADOS and transport_es, "3" to "6" give MENU_PRINCIPAL
and 404_es, "agente" gives MENU_PRINCIPAL and agent_es, any other body gives
MENU_PRINCIPAL and greeting_es. -/
theorem C1_transiciones_menu_principal (numero body : String) (m : Mundo)
    (hdb : m.fallosDb = []) (hhttp : m.fallosHttp = []) (hurl : m.urlValida = true)
    (hreloj : m.ahora.valido) (hest : estadoEfectivo numero m = some "MENU_PRINCIPAL") :
    handleWebhook ⟨"POST", Cuerpo.documento (cargaWebhook numero body)⟩ m
        = (200, manejarOpcionMenuPrincipal numero body (m.conMensaje numero "RECIBIDO" body))
    ∧ (handleWebhook ⟨"POST", Cuerpo.documento (cargaWebhook numero body)⟩ m).2.peticiones
        = m.peticiones ++ [⟨Payload.template numero (tablaMenuPrincipal body).2 "es_AR", true⟩]
    ∧ (handleWebhook ⟨"POST", Cuerpo.documento (cargaWebhook numero body)⟩ m).2.mensajes
        = m.mensajes ++ [⟨numero, "RECIBIDO", body, formatoFechaHora m.ahora⟩,
            ⟨numero, "ENVIADO", buscarMensaje (tablaMenuPrincipal body).2 m.messageTemplates,
              formatoFechaHora m.ahora⟩]
    ∧ estadoEfectivo numero
          (handleWebhook ⟨"POST", Cuerpo.documento (cargaWebhook numero body)⟩ m).2
        = some (tablaMenuPrincipal body).1 := by
  have hev := evento_por_estado numero body "MENU_PRINCIPAL" m hdb hest
  have hest2 : estadoEfectivo numero (m.conMensaje numero "RECIBIDO" body)
      = some "MENU_PRINCIPAL" := by
    rw [← hest]; exact estadoEfectivo_congr numero m _ rfl rfl rfl
  have htr := menuPrincipal_transicion numero body (m.conMensaje numero "RECIBIDO" body)
    hdb hhttp hurl hreloj hest2
  have hres : handleWebhook ⟨"POST", Cuerpo.documento (cargaWebhook numero body)⟩ m
      = (200, manejarOpcionMenuPrincipal numero body
          (m.conMensaje numero "RECIBIDO" body)) := by
    rw [handleWebhook_un_mensaje, hev]
    simp [estadoPrincipal]
  rw [hres]
  refine ⟨rfl, htr.1, ?_, htr.2.2⟩
  simp only []
  rw [htr.2.1]
  simp

/-- C1 at the example sender, whose stored row is MENU_PRINCIPAL since one
hour, and the body "1". -/
theorem C1_transiciones_menu_principal_witness :
    estadoEfectivo remitenteEjemplo (mundoCon "MENU_PRINCIPAL" "2024-03-05 11:00:00")
        = some "MENU_PRINCIPAL"
    ∧ (handleWebhook ⟨"POST", Cuerpo.documento (cargaWebhook remitenteEjemplo "1")⟩
          (mundoCon "MENU_PRINCIPAL" "2024-03-05 11:00:00")).2.peticiones
        = [⟨Payload.template remitenteEjemplo "tours_es" "es_AR", true⟩]
    ∧ estadoEfectivo remitenteEjemplo
          (handleWebhook ⟨"POST", Cuerpo.documento (cargaWebhook remitenteEjemplo "1")⟩
            (mundoCon "MENU_PRINCIPAL" "2024-03-05 11:00:00")).2 = some "TOURS" :=
  have h := C1_transiciones_menu_principal remitenteEjemplo "1"
    (mundoCon "MENU_PRINCIPAL" "2024-03-05 11:00:00") rfl rfl rfl (by decide) (by decide)
  ⟨by decide, h.2.1, h.2.2.2⟩

/-- For a sender whose effective state is a submenu, `handleWebhook` runs the
submenu handler on the logged world, with the transition of the submenu
table. -/
theorem submenu_despachado (numero body estado : String) (m : Mundo)
    (hdb : m.fallosDb = []) (hhttp : m.fallosHttp = []) (hurl : m.urlValida = true)
    (hreloj : m.ahora.valido) (hsub : estado = "TOURS" ∨ estado = "TRASLADOS")
    (hest : estadoEfectivo numero m = some estado) :
    handleWebhook ⟨"POST", Cuerpo.documento (cargaWebhook numero body)⟩ m
        = (200, manejarOpcionTours numero body (m.conMensaje numero "RECIBIDO" body))
    ∧ (handleWebhook ⟨"POST", Cuerpo.documento (cargaWebhook numero body)⟩ m).2.peticiones
        = m.peticiones ++ [⟨Payload.template numero (tablaSubmenu estado body).2 "es_AR", true⟩]
    ∧ estadoEfectivo numero
          (handleWebhook ⟨"POST", Cuerpo.documento (cargaWebhook numero body)⟩ m).2
        = some (tablaSubmenu estado body).1
    ∧ (body ≠ "1" → body ≠ "2" →
        (handleWebhook ⟨"POST", Cuerpo.documento (cargaWebhook numero body)⟩ m).2.usuarios
          = reemplazarUsuario m.usuarios ⟨numero, "MENU_PRINCIPAL", formatoFechaHora m.ahora⟩)
    ∧ (body = "1" ∨ body = "2" →
        (handleWebhook ⟨"POST", Cuerpo.documento (cargaWebhook numero body)⟩ m).2.usuarios
          = m.usuarios) := by
  have hev := evento_por_estado numero body estado m hdb hest
  have hest2 : estadoEfectivo numero (m.conMensaje numero "RECIBIDO" body) = some estado := by
    rw [← hest]; exact estadoEfectivo_congr numero m _ rfl rfl rfl
  have htr := submenu_transicion numero body estado (m.conMensaje numero "RECIBIDO" body)
    hdb hhttp hurl hreloj hest2
  have hres : handleWebhook ⟨"POST", Cuerpo.documento (cargaWebhook numero body)⟩ m
      = (200, manejarOpcionTours numero body (m.conMensaje numero "RECIBIDO" body)) := by
    rw [handleWebhook_un_mensaje, hev]
    rcases hsub with h | h <;> subst h
    · simp [estadoPrincipal, estadoTours]
    · simp [estadoPrincipal, estadoTours, estadoTraslados]
      rfl
  rw [hres]
  exact ⟨rfl, htr.1, htr.2.1, htr.2.2.1, htr.2.2.2⟩

/-- C2: for a sender whose effective state is TOURS (or TRASLADOS) and every
body, with the store and the delivery working, `handleWebhook` answers 200 and
handles the message by `manejarOpcionTours` (or `manejarOpcionTraslados`) on
the logged world: a body other than "1" and "2" writes state MENU_PRINCIPAL
for the sender and sends greeting_es, after which the effective state is
MENU_PRINCIPAL; body "1" or "2" leaves the table `usuarios` as it is, so the
effective state stays the submenu, and the reply is 404_es. -/
theorem C2_transiciones_submenus (numero body : String) (m : Mundo)
    (hdb : m.fallosDb = []) (hhttp : m.fallosHttp = []) (hurl : m.urlValida = true)
    (hreloj : m.ahora.valido) :
    (estadoEfectivo numero m = some "TOURS" →
      handleWebhook ⟨"POST", Cuerpo.documento (cargaWebhook numero body)⟩ m
          = (200, manejarOpcionTours numero body (m.conMensaje numero "RECIBIDO" body))
      ∧ (handleWebhook ⟨"POST", Cuerpo.documento (cargaWebhook numero body)⟩ m).2.peticiones
          = m.peticiones
            ++ [⟨Payload.template numero (tablaSubmenu "TOURS" body).2 "es_AR", true⟩]
      ∧ estadoEfectivo numero
            (handleWebhook ⟨"POST", Cuerpo.documento (cargaWebhook numero body)⟩ m).2
          = some (tablaSubmenu "TOURS" body).1
      ∧ (body ≠ "1" → body ≠ "2" →
          (handleWebhook ⟨"POST", Cuerpo.documento (cargaWebhook numero body)⟩ m).2.usuarios
            = reemplazarUsuario m.usuarios
                ⟨numero, "MENU_PRINCIPAL", formatoFechaHora m.ahora⟩)
      ∧ (body = "1" ∨ body = "2" →
          (handleWebhook ⟨"POST", Cuerpo.documento (cargaWebhook numero body)⟩ m).2.usuarios
            = m.usuarios))
    ∧ (estadoEfectivo numero m = some "TRASLADOS" →
      handleWebhook ⟨"POST", Cuerpo.documento (cargaWebhook numero body)⟩ m
          = (200, manejarOpcionTraslados numero body (m.conMensaje numero "RECIBIDO" body))
      ∧ (handleWebhook ⟨"POST", Cuerpo.documento (cargaWebhook numero body)⟩ m).2.peticiones
          = m.peticiones
            ++ [⟨Payload.template numero (tablaSubmenu "TRASLADOS" body).2 "es_AR", true⟩]
      ∧ estadoEfectivo numero
            (handleWebhook ⟨"POST", Cuerpo.documento (cargaWebhook numero body)⟩ m).2
          = some (tablaSubmenu "TRASLADOS" body).1
      ∧ (body ≠ "1" → body ≠ "2" →
          (handleWebhook ⟨"POST", Cuerpo.documento (cargaWebhook numero body)⟩ m).2.usuarios
            = reemplazarUsuario m.usuarios
                ⟨numero, "MENU_PRINCIPAL", formatoFechaHora m.ahora⟩)
      ∧ (body = "1" ∨ body = "2" →
          (handleWebhook ⟨"POST", Cuerpo.documento (cargaWebhook numero body)⟩ m).2.usuarios
            = m.usuarios)) :=
  ⟨fun h => submenu_despachado numero body "TOURS" m hdb hhttp hurl hreloj (Or.inl rfl) h,
   fun h => submenu_despachado numero body "TRASLADOS" m hdb hhttp hurl hreloj (Or.inr rfl) h⟩

/-- C2 at the example sender in state TOURS with the unrecognised body "9",
and in state TRASLADOS with the body "2". -/
theorem C2_transiciones_submenus_witness :
    estadoEfectivo remitenteEjemplo (mundoCon "TOURS" "2024-03-05 11:00:00") = some "TOURS"
    ∧ (handleWebhook ⟨"POST", Cuerpo.documento (cargaWebhook remitenteEjemplo "9")⟩
          (mundoCon "TOURS" "2024-03-05 11:00:00")).2.peticiones
        = [⟨Payload.template remitenteEjemplo "greeting_es" "es_AR", true⟩]
    ∧ estadoEfectivo remitenteEjemplo
          (handleWebhook ⟨"POST", Cuerpo.documento (cargaWebhook remitenteEjemplo "9")⟩
            (mundoCon "TOURS" "2024-03-05 11:00:00")).2 = some "MENU_PRINCIPAL"
    ∧ estadoEfectivo remitenteEjemplo (mundoCon "TRASLADOS" "2024-03-05 11:00:00")
        = some "TRASLADOS"
    ∧ (handleWebhook ⟨"POST", Cuerpo.documento (cargaWebhook remitenteEjemplo "2")⟩
          (mundoCon "TRASLADOS" "2024-03-05 11:00:00")).2.peticiones
        = [⟨Payload.template remitenteEjemplo "404_es" "es_AR", true⟩] :=
  have h := (C2_transiciones_submenus remitenteEjemplo "9"
    (mundoCon "TOURS" "2024-03-05 11:00:00") rfl rfl rfl (by decide)).1 (by decide)
  have h2 := (C2_transiciones_submenus remitenteEjemplo "2"
    (mundoCon "TRASLADOS" "2024-03-05 11:00:00") rfl rfl rfl (by decide)).2 (by decide)
  ⟨by decide, h.2.1, h.2.2.1, by decide, h2.2.1⟩

/-- C3, evaluated at rows written by `actualizarEstadoUsuario` in a zone other
than UTC. In UTC-05:00 a TOURS row written 20 hours before the read comes back
as MENU_PRINCIPAL; in UTC+02:00 a TOURS row written 25 hours before the read
comes back as TOURS. The column holds the local wall clock of the write and is
read back as UTC. -/
theorem C3_expiracion_con_zona :
    relojOeste.unixNano - (⟨2024, 3, 4, 11, 0, 0, 0, -18000⟩ : Time).unixNano = 20 * Hour
    ∧ (mundoMasTarde ⟨2024, 3, 4, 11, 0, 0, 0, -18000⟩ relojOeste "TOURS").usuarios
      = [⟨remitenteEjemplo, "TOURS", "2024-03-04 11:00:00"⟩]
    ∧ (obtenerEstadoUsuario remitenteEjemplo
        (mundoMasTarde ⟨2024, 3, 4, 11, 0, 0, 0, -18000⟩ relojOeste "TOURS")).1
      = ("MENU_PRINCIPAL", "2024-03-04T11:00:00Z", none)
    ∧ relojEste.unixNano - (⟨2024, 3, 4, 13, 0, 0, 0, 7200⟩ : Time).unixNano = 25 * Hour
    ∧ (obtenerEstadoUsuario remitenteEjemplo
        (mundoMasTarde ⟨2024, 3, 4, 13, 0, 0, 0, 7200⟩ relojEste "TOURS")).1
      = ("TOURS", "2024-03-04T13:00:00Z", none) := by
  decide

/-- C6, evaluated in zone UTC-05:00 at a sender whose AGENTE row was written 22
hours before the request: the "/cerrar" request is answered 400 and the world
is unchanged, so MENU_PRINCIPAL is not written and goodbye_es is not sent. -/
theorem C6_cerrar_rechazado_con_zona :
    relojOeste.unixNano - (⟨2024, 3, 4, 9, 0, 0, 0, -18000⟩ : Time).unixNano = 22 * Hour
    ∧ enviarMensajeSinPlantilla (peticionLibre remitenteEjemplo "/cerrar")
        (mundoMasTarde ⟨2024, 3, 4, 9, 0, 0, 0, -18000⟩ relojOeste "AGENTE")
      = (some 400, mundoMasTarde ⟨2024, 3, 4, 9, 0, 0, 0, -18000⟩ relojOeste "AGENTE")
    ∧ (mundoMasTarde ⟨2024, 3, 4, 9, 0, 0, 0, -18000⟩ relojOeste "AGENTE").usuarios
      = [⟨remitenteEjemplo, "AGENTE", "2024-03-04 09:00:00"⟩]
    ∧ (mundoMasTarde ⟨2024, 3, 4, 9, 0, 0, 0, -18000⟩ relojOeste "AGENTE").peticiones = [] := by
  decide

/-- C7, evaluated in zone UTC+02:00 at a sender whose row was written 25 hours
before the request: the request is not rejected; the text is delivered and
logged and the row becomes AGENTE. -/
theorem C7_texto_entregado_con_zona :
    relojEste.unixNano - (⟨2024, 3, 4, 13, 0, 0, 0, 7200⟩ : Time).unixNano = 25 * Hour
    ∧ enviarMensajeSinPlantilla (peticionLibre remitenteEjemplo "hola")
        (mundoMasTarde ⟨2024, 3, 4, 13, 0, 0, 0, 7200⟩ relojEste "TOURS")
      = (none, { mundoMasTarde ⟨2024, 3, 4, 13, 0, 0, 0, 7200⟩ relojEste "TOURS" with
          usuarios := [⟨remitenteEjemplo, "AGENTE", "2024-03-05 14:00:00"⟩],
          mensajes := [⟨remitenteEjemplo, "ENVIADO", "hola", "2024-03-05 14:00:00"⟩],
          peticiones := [⟨Payload.text remitenteEjemplo "hola", true⟩] }) := by
  decide

/-- The search loop of `enviarMensaje` returns the message of the first catalog
entry with the target id, the empty string when no entry has it. -/
theorem buscarMensaje_esPrimerMensaje (nombre : String) (catalogo : List MessageTemplate) :
    esPrimerMensaje nombre catalogo (buscarMensaje nombre catalogo) := by
  induction catalogo with
  | nil => exact Or.inr ⟨by simp, rfl⟩
  | cons t r ih =>
    by_cases ht : t.ID = nombre
    · left
      exact ⟨[], t, r, rfl, by simp, ht, by simp [buscarMensaje, ht]⟩
    · have hb : buscarMensaje nombre (t :: r) = buscarMensaje nombre r := by
        simp [buscarMensaje, ht]
      rw [hb]
      rcases ih with ⟨antes, t2, despues, h1, h2, h3, h4⟩ | ⟨h1, h2⟩
      · left
        refine ⟨t :: antes, t2, despues, by rw [h1]; rfl, ?_, h3, h4⟩
        intro x hx
        rcases List.mem_cons.mp hx with hx | hx
        · rw [hx]; exact ht
        · exact h2 x hx
      · right
        refine ⟨?_, h2⟩
        intro x hx
        rcases List.mem_cons.mp hx with hx | hx
        · rw [hx]; exact ht
        · exact h1 x hx

/-- The specification's body for a template name is unique. -/
theorem esPrimerMensaje_unico (nombre : String) (catalogo : List MessageTemplate)
    (a b : String) (ha : esPrimerMensaje nombre catalogo a)
    (hb : esPrimerMensaje nombre catalogo b) : a = b := by
  induction catalogo with
  | nil =>
    rcases ha with ⟨p, t, q, h, _⟩ | ⟨_, ha⟩
    · cases p <;> simp at h
    · rcases hb with ⟨p, t, q, h, _⟩ | ⟨_, hb⟩
      · cases p <;> simp at h
      · rw [ha, hb]
  | cons c r ih =>
    have paso : ∀ x, esPrimerMensaje nombre (c :: r) x →
        (c.ID = nombre ∧ x = c.Message) ∨ (c.ID ≠ nombre ∧ esPrimerMensaje nombre r x) := by
      intro x hx
      rcases hx with ⟨p, t, q, h, hp, ht, hxm⟩ | ⟨hn, hx0⟩
      · cases p with
        | nil =>
          simp only [List.nil_append, List.cons.injEq] at h
          left; rw [h.1]; exact ⟨ht, hxm⟩
        | cons p0 ps =>
          simp only [List.cons_append, List.cons.injEq] at h
          right
          refine ⟨?_, Or.inl ⟨ps, t, q, h.2, fun y hy => hp y (List.mem_cons_of_mem _ hy),
            ht, hxm⟩⟩
          rw [h.1]; exact hp p0 (List.mem_cons_self _ _)
      · right
        exact ⟨hn c (List.mem_cons_self _ _),
          Or.inr ⟨fun y hy => hn y (List.mem_cons_of_mem _ hy), hx0⟩⟩
    rcases paso a ha with ⟨h1, h2⟩ | ⟨h1, h2⟩
    · rcases paso b hb with ⟨h3, h4⟩ | ⟨h3, _⟩
      · rw [h2, h4]
      · exact absurd h1 h3
    · rcases paso b hb with ⟨h3, _⟩ | ⟨_, h4⟩
      · exact absurd h3 h1
      · exact ih h2 h4

/-- C9, amended: with `nombre` the template id, or greeting_es when the
template id is empty, and `cuerpo` the message of the first catalog entry whose
id is `nombre` (the empty string when none has it; this body is unique),
`enviarMensaje` either leaves the log as it was or appends one ENVIADO entry
with body `cuerpo` after a provider request that got a response. When the
request gets a response the entry is appended if the insert works, whatever
the catalog holds; when the request fails with a transport error, no entry is
appended. -/
theorem C9_registro_tras_envio (numero contenido : String) (m : Mundo) :
    ∃ cuerpo,
      esPrimerMensaje (if contenido = "" then "greeting_es" else contenido)
        m.messageTemplates cuerpo
      ∧ (∀ otro, esPrimerMensaje (if contenido = "" then "greeting_es" else contenido)
          m.messageTemplates otro → otro = cuerpo)
      ∧ ((enviarMensaje numero contenido m).mensajes = m.mensajes
        ∨ ((enviarMensaje numero contenido m).mensajes
            = m.mensajes ++ [⟨numero, "ENVIADO", cuerpo, formatoFechaHora m.ahora⟩]
          ∧ (enviarMensaje numero contenido m).peticiones
            = m.peticiones ++ [⟨Payload.template numero
                (if contenido = "" then "greeting_es" else contenido) "es_AR", true⟩]))
      ∧ (m.urlValida = true → m.fallosHttp.head? ≠ some true →
          (enviarMensaje numero contenido m).peticiones
            = m.peticiones ++ [⟨Payload.template numero
                (if contenido = "" then "greeting_es" else contenido) "es_AR", true⟩]
          ∧ (m.fallosDb.head? ≠ some true →
              (enviarMensaje numero contenido m).mensajes
                = m.mensajes ++ [⟨numero, "ENVIADO", cuerpo, formatoFechaHora m.ahora⟩]))
      ∧ (m.urlValida = true → m.fallosHttp.head? = some true →
          (enviarMensaje numero contenido m).mensajes = m.mensajes
          ∧ (enviarMensaje numero contenido m).peticiones
            = m.peticiones ++ [⟨Payload.template numero
                (if contenido = "" then "greeting_es" else contenido) "es_AR", false⟩]) := by
  have hc := enviar_registro_casos numero contenido m
  have hp := buscarMensaje_esPrimerMensaje (if contenido = "" then "greeting_es" else contenido)
    m.messageTemplates
  exact ⟨_, hp, fun otro ho => esPrimerMensaje_unico _ _ _ _ ho hp, hc.1, hc.2.1, hc.2.2⟩

/-- C9, amended, at a catalog in which two templates share the id: the logged
body is the message of the first of them. -/
theorem C9_registro_tras_envio_witness :
    (enviarMensaje remitenteEjemplo "promo_es" mundoDuplicado).mensajes
      = [⟨remitenteEjemplo, "ENVIADO", "primera", "2024-03-05 12:00:00"⟩] := by
  obtain ⟨cuerpo, _, hu, _, h2, _⟩ :=
    C9_registro_tras_envio remitenteEjemplo "promo_es" mundoDuplicado
  have hc : "primera" = cuerpo :=
    hu "primera" (Or.inl ⟨[⟨"greeting_es", "Hola"⟩], ⟨"promo_es", "primera"⟩,
      [⟨"promo_es", "segunda"⟩], rfl, by decide, rfl, rfl⟩)
  have h3 := (h2 rfl (by decide)).2 (by decide)
  rw [← hc] at h3
  exact h3

end ChatbotGo
